import Mathlib

set_option maxRecDepth 8000

/-!
Shallow embedding of `bruker_io.py` (Bruker XRF spectra import/export).

Modelling conventions:
* A text file read with `readlines()` is modelled by the `List String` of its
  lines (each line keeps its trailing newline, as in Python); a file read as a
  whole is a `String`.
* Python `float` values are modelled as `ℚ`.  The float literals appearing in
  the code and in the files under consideration are plain decimal literals,
  which `ℚ` represents exactly.
* Python runtime failures (`IndexError`, `ValueError` from `float()`/`int()`,
  `TypeError`, `UnboundLocalError`/`NameError`, `AttributeError`) are modelled
  by `Except PyErr`; a mutating Python function on `fitting_data` becomes a
  function `… → FittingData → Except PyErr FittingData`.
* `np.empty n` allocates an array of length `n` with indeterminate contents;
  the program only ever relies on its length and always overwrites every cell
  it reads back, so it is modelled as `List.replicate n 0`.
-/

namespace BrukerIO

/-- Kinds of Python runtime failure that the modelled code can raise. -/
inductive PyErr where
  | indexError
  | valueError
  | typeError
  | nameError
  | attributeError
  deriving DecidableEq

/-- Check that an `Except` computation returned normally. -/
def pyIsOk {α : Type} (e : Except PyErr α) : Bool :=
  match e with
  | .ok _ => true
  | .error _ => false

/-- Left fold threading an `Except`: the model of a Python `for` loop whose
body can raise. -/
def exceptFoldl {σ α : Type} (f : σ → α → Except PyErr σ) : σ → List α → Except PyErr σ
  | s, [] => .ok s
  | s, a :: rest =>
    match f s a with
    | .error e => .error e
    | .ok s2 => exceptFoldl f s2 rest

/-- Whitespace characters for Python `str.split()` / `str.strip()`. -/
def isPyWs (c : Char) : Bool :=
  c == ' ' || c == '\t' || c == '\n' || c == '\r' || c == '\x0b' || c == '\x0c'

/-- Value of a list of decimal digit characters (most significant first),
accumulator version. -/
def digitsToNatAux : Nat → List Char → Nat
  | n, [] => n
  | n, c :: cs => digitsToNatAux (10 * n + (c.toNat - '0'.toNat)) cs

/-- Value of a list of decimal digit characters (most significant first). -/
def digitsToNat (cs : List Char) : Nat := digitsToNatAux 0 cs

/-- Python `str.strip()` on the character list: remove leading and trailing
whitespace. -/
def pyStripChars (cs : List Char) : List Char :=
  ((cs.dropWhile isPyWs).reverse.dropWhile isPyWs).reverse

/-- Unsigned part of Python `float(s)` on already-stripped characters:
`digits`, `digits.digits`, `digits.` or `.digits` (the decimal forms used by
the program and its files; exponent and inf/nan forms are not modelled). -/
def parseUnsignedFloat (cs : List Char) : Option ℚ :=
  let ip := cs.takeWhile Char.isDigit
  let rest := cs.dropWhile Char.isDigit
  match rest with
  | [] => if ip.isEmpty then none else some ((digitsToNat ip : ℚ))
  | '.' :: fp =>
    if fp.all Char.isDigit && !(ip.isEmpty && fp.isEmpty) then
      some ((digitsToNat ip : ℚ) + (digitsToNat fp : ℚ) / (10 : ℚ) ^ fp.length)
    else none
  | _ => none

/-- Python `float(s)` (also the model of `np.float(s)`): strip whitespace,
optional sign, decimal literal; `none` models a raised `ValueError`. -/
def pyFloat (s : String) : Option ℚ :=
  match pyStripChars s.data with
  | '-' :: cs => (parseUnsignedFloat cs).map (fun q => -q)
  | '+' :: cs => parseUnsignedFloat cs
  | cs => parseUnsignedFloat cs

/-- Python `int(s)`: strip whitespace, optional sign, decimal digits only. -/
def pyInt (s : String) : Option Int :=
  match pyStripChars s.data with
  | '-' :: cs =>
    if !cs.isEmpty && cs.all Char.isDigit then some (-(digitsToNat cs : Int)) else none
  | '+' :: cs =>
    if !cs.isEmpty && cs.all Char.isDigit then some ((digitsToNat cs : Int)) else none
  | cs =>
    if !cs.isEmpty && cs.all Char.isDigit then some ((digitsToNat cs : Int)) else none

/-- Auxiliary splitter for Python `str.split(sep)` with an explicit separator:
empty fields are kept. -/
def splitOnCharAux (sep : Char) : List Char → List Char → List String
  | [], acc => [String.mk acc.reverse]
  | c :: cs, acc =>
    if c == sep then String.mk acc.reverse :: splitOnCharAux sep cs []
    else splitOnCharAux sep cs (c :: acc)

/-- Python `s.split(sep)` for a one-character separator. -/
def pySplitOn (sep : Char) (s : String) : List String :=
  splitOnCharAux sep s.data []

/-- Auxiliary splitter for Python `str.split()` (no argument): maximal runs of
non-whitespace characters; `acc` holds the current run reversed. -/
def splitWsAux : List Char → List Char → List (List Char)
  | [], acc => if acc.isEmpty then [] else [acc.reverse]
  | c :: cs, acc =>
    if isPyWs c then
      (if acc.isEmpty then splitWsAux cs [] else acc.reverse :: splitWsAux cs [])
    else splitWsAux cs (c :: acc)

/-- Python `str.split()` with no argument, over characters. -/
def splitWsChars (cs : List Char) : List (List Char) := splitWsAux cs []

/-- Python `s.split()` with no argument. -/
def pySplit (s : String) : List String := (splitWsChars s.data).map String.mk

/-- Does `hay` start with `needle`? -/
def beginsWith : List Char → List Char → Bool
  | [], _ => true
  | _ :: _, [] => false
  | a :: as2, b :: bs => a == b && beginsWith as2 bs

/-- Does some suffix of the haystack start with the needle?  This is Python's
substring test `needle in hay`. -/
def hasSubChars (needle : List Char) : List Char → Bool
  | [] => needle.isEmpty
  | c :: rest => beginsWith needle (c :: rest) || hasSubChars needle rest

/-- Python `pat in s` (substring containment); `s.find(pat) != -1` is the
same test. -/
def containsSub (pat s : String) : Bool := hasSubChars pat.data s.data

/-- Characters of the first line of a file, including its newline when present:
the model of `file.readline()`. -/
def takeLine : List Char → List Char
  | [] => []
  | c :: cs => if c == '\n' then [c] else c :: takeLine cs

/-- Python `file.readline()` on the whole file content. -/
def pyReadline (s : String) : String := String.mk (takeLine s.data)

/-- Join character lists with a separator: the model of Python
`sep.join(parts)` at the character level. -/
def joinSep (sep : List Char) : List (List Char) → List Char
  | [] => []
  | [t] => t
  | t :: ts => t ++ sep ++ joinSep sep ts

/-- Python `sep.join(parts)`. -/
def pyJoin (sep : String) (parts : List String) : String :=
  String.mk (joinSep sep.data (parts.map String.data))

/-- Model of `re.sub("\n", '', s)`: remove every newline character. -/
def removeNewlines (s : String) : String :=
  String.mk (s.data.filter (fun c => !(c == '\n')))

/-- Parse every token as a Python float; `none` models the first raised
`ValueError`.  Used for `np.fromstring(s, sep=',')` (whose actual silent
truncation on a malformed token is never exercised by the program's files;
the spec mandates failure there). -/
def parseAllFloat : List String → Option (List ℚ)
  | [] => some []
  | t :: ts =>
    match pyFloat t with
    | none => none
    | some v =>
      match parseAllFloat ts with
      | none => none
      | some vs => some (v :: vs)

/-- Parse every token as a Python int; `none` models a raised `ValueError`.
Used for `np.asarray(tokens, dtype=int)`. -/
def parseAllInt : List String → Option (List Int)
  | [] => some []
  | t :: ts =>
    match pyInt t with
    | none => none
    | some v =>
      match parseAllInt ts with
      | none => none
      | some vs => some (v :: vs)

/-- Zero-pad a numeral to two digits (strftime `%H`/`%I`/`%M`/`%S`/`%d`/`%m`). -/
def pad2 (n : Nat) : String := if n < 10 then "0" ++ toString n else toString n

/-- Parse one `strptime` numeric field of at most two digits lying in
`[lo, hi]`. -/
def parseField2 (lo hi : Nat) (t : String) : Option Nat :=
  let cs := t.data
  if !cs.isEmpty && decide (cs.length ≤ 2) && cs.all Char.isDigit
      && decide (lo ≤ digitsToNat cs) && decide (digitsToNat cs ≤ hi) then
    some (digitsToNat cs)
  else none

/-- Model of `datetime.strptime(s, "%H:%M:%S")`, returning (hour, minute,
second); `none` models the raised `ValueError` on a mismatch. -/
def parseTimeHMS (s : String) : Option (Nat × Nat × Nat) :=
  match pySplitOn ':' s with
  | [hh, mm, ss] =>
    match parseField2 0 23 hh, parseField2 0 59 mm, parseField2 0 59 ss with
    | some h, some m, some sec => some (h, m, sec)
    | _, _, _ => none
  | _ => none

/-- Model of `time.strftime("%I:%M:%S %p")` on a parsed (hour, minute,
second). -/
def formatTime12 (t : Nat × Nat × Nat) : String :=
  pad2 ((t.1 + 11) % 12 + 1) ++ ":" ++ pad2 t.2.1 ++ ":" ++ pad2 t.2.2 ++
    (if t.1 < 12 then " AM" else " PM")

/-- Model of `datetime.strptime(s, "%d.%m.%Y")`, returning (day, month,
year); the year field is four digits. -/
def parseDateDMY (s : String) : Option (Nat × Nat × Nat) :=
  match pySplitOn '.' s with
  | [dd, mm, yyyy] =>
    match parseField2 1 31 dd, parseField2 1 12 mm with
    | some d, some m =>
      if yyyy.data.length == 4 && yyyy.data.all Char.isDigit then
        some (d, m, digitsToNat yyyy.data)
      else none
    | _, _ => none
  | _ => none

/-- Model of `date.strftime("%m/%d/%Y")` on a parsed (day, month, year). -/
def formatDateMDY (d : Nat × Nat × Nat) : String :=
  pad2 d.2.1 ++ "/" ++ pad2 d.1 ++ "/" ++ toString d.2.2

/-- Class `FittingData` of `bruker_io.py`: the shared record every decoder
fills and the encoders read.  Field defaults are the class-attribute values
from the source (`channels`/`energy_scale` start as `np.empty(4096)`, i.e. a
4096-cell array of indeterminate contents, modelled as zeros; `no_channels`
starts as the integer `0` and is stored by the SPX decoder as the raw tag
text, so it is modelled as the string `"0"`, on which `int()` agrees).  The
`mn_fwhm` field is omitted: its only write involves `sqrt`/`log`, which have
no exact `ℚ` value, that write cannot raise, and no modelled behaviour reads
the field back. -/
structure FittingData where
  file_name : String
  calibration_abs : ℚ := -9551 / 10
  calibration_lin : ℚ := 10
  channels : List ℚ := List.replicate 4096 0
  data_lines : List String := []
  date_measure : String := ""
  detector_thickness : ℚ := 0
  detector_type : String := ""
  energy_scale : List ℚ := List.replicate 4096 0
  file_content : String := ""
  file_line : String := ""
  file_lines : List String := []
  file_status : Bool := false
  header_lines : List String := []
  modification : String := "_modified.txt"
  life_time_in_ms : ℚ := 0
  line_count : Nat := 0
  no_channels : String := "0"
  pulse_density : String := ""
  real_time_in_ms : ℚ := 0
  replace_lines : List String := []
  shaping_time : ℚ := 0
  si_dead_layer : String := ""
  start_count : Nat := 21
  time_measure : String := ""
  window_type : String := ""

/-- Helper `reset_to_default_values` of `bruker_io.py`: clear the six scratch
fields. -/
def reset_to_default_values (fd : FittingData) : FittingData :=
  { fd with
    file_content := ""
    file_line := ""
    file_lines := []
    header_lines := []
    data_lines := []
    replace_lines := [] }

/-- The six transient scratch fields of a record, as one tuple. -/
def scratchFields (fd : FittingData) :
    String × String × List String × List String × List String × List String :=
  (fd.file_content, fd.file_line, fd.file_lines, fd.header_lines, fd.data_lines,
    fd.replace_lines)

/-- All six scratch fields are empty. -/
def scratchCleared (fd : FittingData) : Prop :=
  fd.file_content = "" ∧ fd.file_line = "" ∧ fd.file_lines = [] ∧
    fd.header_lines = [] ∧ fd.data_lines = [] ∧ fd.replace_lines = []

/-- Helper `write_converted_file`, restricted to the lines it writes out: each
element of `text_source` is written followed by the separator, and any
separator argument other than `"\n"` (the code passes the boolean `False`,
modelled as the string `"False"`) is replaced by the empty string.  The output
file-name computation and the actual disk write have no effect on the record
and are not modelled. -/
def write_converted_file (text_source : List String) (separator : String) : List String :=
  let sep := if separator ≠ "\n" then "" else "\n"
  text_source.map (fun l => l ++ sep)

/-- Function `bruker_txt_test`: read the first line and compare it with the
known Bruker signature line under `==`.  The open file handle held in
`file_content` is modelled by the file's content string. -/
def bruker_txt_test (content : String) (fd0 : FittingData) : FittingData :=
  let fd1 := { fd0 with file_content := content }
  let fd2 := { fd1 with file_line := pyReadline content }
  let fd3 := { fd2 with
    file_status := decide ("Bruker Nano GmbH Berlin, Germany\n" = fd2.file_line) }
  reset_to_default_values fd3

/-- Helper `txt_read_lines`: open the file and read its lines. -/
def txt_read_lines (lines : List String) (fd : FittingData) : FittingData :=
  { fd with file_content := pyJoin "" lines, file_lines := lines }

/-- One iteration of the slow-path scan of `txt_start_count`: advance
`line_count`, and on a line containing `"Counts"` store that (1-based) line
number into `start_count` when it differs. -/
def txtScanStep (fd : FittingData) (line : String) : FittingData :=
  let fd1 := { fd with file_line := line, line_count := fd.line_count + 1 }
  if containsSub "Counts" line then
    (if fd1.start_count ≠ fd1.line_count then { fd1 with start_count := fd1.line_count }
     else fd1)
  else fd1

/-- Slow-path scan loop of `txt_start_count` over the remaining lines. -/
def txtScanLoop : FittingData → List String → FittingData
  | fd, [] => fd
  | fd, l :: ls => txtScanLoop (txtScanStep fd l) ls

/-- Helper `txt_start_count`: fast path keeps `start_count` when the line at
that index contains `"Counts"`; otherwise every line is scanned.  Indexing a
line past the end of `file_lines` raises `IndexError`. -/
def txt_start_count (fd : FittingData) : Except PyErr FittingData :=
  match fd.file_lines.get? fd.start_count with
  | none => .error .indexError
  | some l =>
    if containsSub "Counts" l then .ok fd
    else .ok (txtScanLoop { fd with line_count := 0 } fd.file_lines)

/-- Parse one data line of the tabular text format: `split()` it, then
`np.float` the first two tokens (a missing token raises `IndexError`, a
malformed one `ValueError`). -/
def txtParseDataLine (l : String) : Except PyErr (ℚ × ℚ) :=
  match (pySplit l).get? 0 with
  | none => .error .indexError
  | some t0 =>
    match pyFloat t0 with
    | none => .error .valueError
    | some v0 =>
      match (pySplit l).get? 1 with
      | none => .error .indexError
      | some t1 =>
        match pyFloat t1 with
        | none => .error .valueError
        | some v1 => .ok (v0, v1)

/-- Parse every data line of the tabular text format. -/
def txtParseDataLines : List String → Except PyErr (List (ℚ × ℚ))
  | [] => .ok []
  | l :: ls =>
    match txtParseDataLine l with
    | .error e => .error e
    | .ok p =>
      match txtParseDataLines ls with
      | .error e => .error e
      | .ok ps => .ok (p :: ps)

/-- Function `bruker_txt_import`: read the lines, locate the start of the
data, and split each data line into an energy and a count value (the source
preallocates `np.empty` arrays of the data-line count and fills every index). -/
def bruker_txt_import (lines : List String) (fd0 : FittingData) : Except PyErr FittingData :=
  let fd1 := txt_read_lines lines fd0
  match txt_start_count fd1 with
  | .error e => .error e
  | .ok fd2 =>
    let fd3 := { fd2 with data_lines := fd2.file_lines.drop fd2.start_count }
    match txtParseDataLines fd3.data_lines with
    | .error e => .error e
    | .ok ps =>
      .ok (reset_to_default_values
        { fd3 with
          energy_scale := ps.map (fun p => p.1)
          channels := ps.map (fun p => p.2) })

/-- Function `bruker_txt_mod`: re-read the source text file, keep the header
lines, rebuild each data line by re-joining its `split()` tokens with four
spaces plus a newline, and write header plus rebuilt data out (separator
argument `False`).  Returns the final record together with the written
lines. -/
def bruker_txt_mod (lines : List String) (fd0 : FittingData) :
    Except PyErr (FittingData × List String) :=
  let fd1 := txt_read_lines lines fd0
  match txt_start_count fd1 with
  | .error e => .error e
  | .ok fd2 =>
    let fd3 := { fd2 with
      header_lines := fd2.file_lines.take fd2.start_count
      data_lines := fd2.file_lines.drop fd2.start_count }
    let fd4 := { fd3 with
      replace_lines := fd3.data_lines.map (fun l => pyJoin "    " (pySplit l) ++ "\n") }
    let text_list := fd4.header_lines ++ fd4.replace_lines
    .ok (reset_to_default_values fd4, write_converted_file text_list "False")

/-- The `"XPERCHAN"` arm of the `bruker_msa_import` scan: on a line containing
the marker, split on `:` and set `calibration_lin` to 1000 times the float
after the colon. -/
def msaXperchanStep (line : String) (fd : FittingData) : Except PyErr FittingData :=
  if containsSub "XPERCHAN" line then
    match (pySplitOn ':' line).get? 1 with
    | none => .error .indexError
    | some t =>
      match pyFloat t with
      | none => .error .valueError
      | some v => .ok { fd with calibration_lin := 1000 * v }
  else .ok fd

/-- The `"OFFSET"` arm of the `bruker_msa_import` scan: on a line containing
the marker, split on `:` and set `calibration_abs` to −10 times the float
after the colon. -/
def msaOffsetStep (line : String) (fd : FittingData) : Except PyErr FittingData :=
  if containsSub "OFFSET" line then
    match (pySplitOn ':' line).get? 1 with
    | none => .error .indexError
    | some t =>
      match pyFloat t with
      | none => .error .valueError
      | some v => .ok { fd with calibration_abs := -10 * v }
  else .ok fd

/-- One iteration of the `bruker_msa_import` scan: advance `line_count`; run
the `"XPERCHAN"` and `"OFFSET"` arms; a `"SPECTRUM"` line records the running
counter in the local `start_msa` (the second state component, `none` while
still unbound). -/
def msaScanLine (st : FittingData × Option Nat) (line : String) :
    Except PyErr (FittingData × Option Nat) :=
  match msaXperchanStep line { st.1 with file_line := line, line_count := st.1.line_count + 1 }
  with
  | .error e => .error e
  | .ok fd2 =>
    match msaOffsetStep line fd2 with
    | .error e => .error e
    | .ok fd3 =>
      .ok (fd3, if containsSub "SPECTRUM" line then some fd3.line_count else st.2)

/-- Function `bruker_msa_import`: scan all lines for the calibration and
`SPECTRUM` markers, slice the data lines (`[start_msa:-1]`), join them, strip
newlines, parse the comma-separated values into `channels`, and synthesize a
4096-point `energy_scale`.  If no line contained `"SPECTRUM"`, reading the
unbound local `start_msa` raises (`UnboundLocalError`, modelled as
`nameError`). -/
def bruker_msa_import (lines : List String) (fd0 : FittingData) : Except PyErr FittingData :=
  let fd1 := { fd0 with file_content := pyJoin "" lines, file_lines := lines, line_count := 0 }
  match exceptFoldl msaScanLine (fd1, none) lines with
  | .error e => .error e
  | .ok (fd2, startMsa) =>
    match startMsa with
    | none => .error .nameError
    | some k =>
      let fd3 := { fd2 with data_lines := (lines.drop k).dropLast }
      let newString := removeNewlines (pyJoin "" fd3.data_lines)
      match parseAllFloat (pySplitOn ',' newString) with
      | none => .error .valueError
      | some ch =>
        let fd4 := { fd3 with channels := ch }
        let fd5 := { fd4 with
          energy_scale :=
            (List.range 4096).map
              (fun i : Nat => fd4.calibration_abs + (i : ℚ) * fd4.calibration_lin) }
        .ok (reset_to_default_values fd5)

/-- Parsed XML element as produced by `xml.etree.ElementTree`: tag, attribute
map (modelled as an association list in document order; the code only compares
it with singleton dicts, for which list equality coincides with map equality),
text (an absent text is modelled as `""`: every use either float-parses it or
`strptime`s it, and both fail on `""` exactly as they raise on `None`), and
child elements. -/
inductive Xml where
  | elem (tag : String) (attrib : List (String × String)) (text : String)
      (children : List Xml)

/-- Tag of an element. -/
def Xml.tag : Xml → String
  | .elem t _ _ _ => t

/-- Attribute list of an element. -/
def Xml.attrib : Xml → List (String × String)
  | .elem _ a _ _ => a

/-- Text of an element. -/
def Xml.text : Xml → String
  | .elem _ _ x _ => x

/-- Children of an element. -/
def Xml.children : Xml → List Xml
  | .elem _ _ _ c => c

/-- ElementTree `element.find(tag)`: first child with the given tag. -/
def Xml.findTag (e : Xml) (t : String) : Option Xml :=
  e.children.find? (fun c => c.tag == t)

/-- Local variables of `bruker_spx_import` that start unbound and are assigned
by the tree walk; reading one that is still `none` afterwards raises
(`NameError`/`UnboundLocalError`). -/
structure SpxLocals where
  date : Option String := none
  time : Option String := none
  calibration_abs : Option ℚ := none
  calibration_lin : Option ℚ := none
  sigma_abs : Option ℚ := none
  sigma_lin : Option ℚ := none

/-- Leaves of a `TRTSpectrumHardwareHeader` block (`sublevel_five`):
`RealTime`, `LifeTime`, `PulseDensity`, `ShapingTime`. -/
def spxHardwareLeaf (fd : FittingData) (e : Xml) : Except PyErr FittingData :=
  match
    (if e.tag = "RealTime" then
      match pyFloat e.text with
      | none => .error .valueError
      | some v => .ok { fd with real_time_in_ms := v }
    else .ok fd : Except PyErr FittingData)
  with
  | .error er => .error er
  | .ok fd1 =>
    match
      (if e.tag = "LifeTime" then
        match pyFloat e.text with
        | none => .error .valueError
        | some v => .ok { fd1 with life_time_in_ms := v }
      else .ok fd1 : Except PyErr FittingData)
    with
    | .error er => .error er
    | .ok fd2 =>
      let fd3 := if e.tag = "PulseDensity" then { fd2 with pulse_density := e.text } else fd2
      if e.tag = "ShapingTime" then
        match pyFloat e.text with
        | none => .error .valueError
        | some v => .ok { fd3 with shaping_time := v }
      else .ok fd3

/-- Leaves of a `TRTDetectorHeader` block (`sublevel_five`): `Type`,
`DetectorThickness`, `SiDeadLayerThickness`, `WindowType`. -/
def spxDetectorLeaf (fd : FittingData) (e : Xml) : Except PyErr FittingData :=
  let fd1 := if e.tag = "Type" then { fd with detector_type := e.text } else fd
  match
    (if e.tag = "DetectorThickness" then
      match pyFloat e.text with
      | none => .error .valueError
      | some v => .ok { fd1 with detector_thickness := v }
    else .ok fd1 : Except PyErr FittingData)
  with
  | .error er => .error er
  | .ok fd2 =>
    let fd3 :=
      if e.tag = "SiDeadLayerThickness" then { fd2 with si_dead_layer := e.text } else fd2
    .ok (if e.tag = "WindowType" then { fd3 with window_type := e.text } else fd3)

/-- Leaves of the `TRTSpectrumHeader` block (`sublevel_four`): `Date`, `Time`,
`ChannelCount` (stores the raw text into `no_channels` and reallocates both
arrays to `np.empty(int(text))`, which raises `ValueError` on a malformed or
negative count), `CalibAbs`, `CalibLin`, `SigmaAbs`, `SigmaLin`. -/
def spxSpectrumLeaf (st : FittingData × SpxLocals) (e : Xml) :
    Except PyErr (FittingData × SpxLocals) :=
  let fd := st.1
  let loc := st.2
  let loc1 := if e.tag = "Date" then { loc with date := some e.text } else loc
  let loc2 := if e.tag = "Time" then { loc1 with time := some e.text } else loc1
  match
    (if e.tag = "ChannelCount" then
      match pyInt e.text with
      | none => .error .valueError
      | some n =>
        if n < 0 then .error .valueError
        else
          .ok { fd with
            no_channels := e.text
            channels := List.replicate n.toNat 0
            energy_scale := List.replicate n.toNat 0 }
    else .ok fd : Except PyErr FittingData)
  with
  | .error er => .error er
  | .ok fd1 =>
    match
      (if e.tag = "CalibAbs" then
        match pyFloat e.text with
        | none => .error .valueError
        | some v => .ok { loc2 with calibration_abs := some v }
      else .ok loc2 : Except PyErr SpxLocals)
    with
    | .error er => .error er
    | .ok loc3 =>
      match
        (if e.tag = "CalibLin" then
          match pyFloat e.text with
          | none => .error .valueError
          | some v => .ok { loc3 with calibration_lin := some v }
        else .ok loc3 : Except PyErr SpxLocals)
      with
      | .error er => .error er
      | .ok loc4 =>
        match
          (if e.tag = "SigmaAbs" then
            match pyFloat e.text with
            | none => .error .valueError
            | some v => .ok { loc4 with sigma_abs := some v }
          else .ok loc4 : Except PyErr SpxLocals)
        with
        | .error er => .error er
        | .ok loc5 =>
          match
            (if e.tag = "SigmaLin" then
              match pyFloat e.text with
              | none => .error .valueError
              | some v => .ok { loc5 with sigma_lin := some v }
            else .ok loc5 : Except PyErr SpxLocals)
          with
          | .error er => .error er
          | .ok loc6 => .ok (fd1, loc6)

/-- Body of the walk at `sublevel_three`: a `TRTHeaderedClass` child is
searched for the hardware and detector header blocks (matched by their
`Type` attribute), and an element whose attribute map is exactly
`{'Type': 'TRTSpectrumHeader'}` has its children read as spectrum-header
leaves. -/
def spxLevel3 (st : FittingData × SpxLocals) (s3 : Xml) :
    Except PyErr (FittingData × SpxLocals) :=
  match
    (if s3.tag = "TRTHeaderedClass" then
      exceptFoldl
        (fun fd s4 =>
          match
            (if s4.attrib = [("Type", "TRTSpectrumHardwareHeader")] then
              exceptFoldl spxHardwareLeaf fd s4.children
            else .ok fd : Except PyErr FittingData)
          with
          | .error er => .error er
          | .ok fd1 =>
            if s4.attrib = [("Type", "TRTDetectorHeader")] then
              exceptFoldl spxDetectorLeaf fd1 s4.children
            else .ok fd1)
        st.1 s3.children
    else .ok st.1 : Except PyErr FittingData)
  with
  | .error er => .error er
  | .ok fd1 =>
    if s3.attrib = [("Type", "TRTSpectrumHeader")] then
      exceptFoldl spxSpectrumLeaf (fd1, st.2) s3.children
    else .ok (fd1, st.2)

/-- Body of the walk at `sublevel_two`: walk the children, then, when this
node has a `Channels` child, overwrite `channels` with its comma-separated
integer list (`np.asarray(text.split(','), dtype=int)`). -/
def spxLevel2 (st : FittingData × SpxLocals) (s2 : Xml) :
    Except PyErr (FittingData × SpxLocals) :=
  match exceptFoldl spxLevel3 st s2.children with
  | .error er => .error er
  | .ok st1 =>
    match s2.findTag "Channels" with
    | none => .ok st1
    | some ch =>
      match parseAllInt (pySplitOn ',' ch.text) with
      | none => .error .valueError
      | some ns => .ok ({ st1.1 with channels := ns.map (fun z : Int => (z : ℚ)) }, st1.2)

/-- The whole tree walk of `bruker_spx_import` over the root's children. -/
def spxTraverse (root : Xml) (fd0 : FittingData) :
    Except PyErr (FittingData × SpxLocals) :=
  exceptFoldl spxLevel2 (fd0, {}) root.children

/-- Post-processing of `bruker_spx_import` after the tree walk, in source
order: reformat `Time` and `Date` (reading an unassigned local raises
`nameError`; a `strptime` mismatch raises `valueError`), rescale the
calibration factors by 1000, require both sigma locals for the Mn-FWHM
computation (whose `sqrt`/`log` value is not representable in `ℚ` and cannot
raise, so only the unbound-local check is modelled), then recompute
`energy_scale` over `int(no_channels)` points as
`(calibration_abs + calibration_lin * i) / 1000`. -/
def spxPost (fd : FittingData) (loc : SpxLocals) : Except PyErr FittingData :=
  match loc.time with
  | none => .error .nameError
  | some tS =>
    match parseTimeHMS tS with
    | none => .error .valueError
    | some t =>
      let fd1 := { fd with time_measure := formatTime12 t }
      match loc.date with
      | none => .error .nameError
      | some dS =>
        match parseDateDMY dS with
        | none => .error .valueError
        | some d =>
          let fd2 := { fd1 with date_measure := formatDateMDY d }
          match loc.calibration_abs with
          | none => .error .nameError
          | some ca =>
            let fd3 := { fd2 with calibration_abs := 1000 * ca }
            match loc.calibration_lin with
            | none => .error .nameError
            | some cl =>
              let fd4 := { fd3 with calibration_lin := 1000 * cl }
              match loc.sigma_abs, loc.sigma_lin with
              | some _, some _ =>
                match pyInt fd4.no_channels with
                | none => .error .valueError
                | some n =>
                  if n < 0 then .error .valueError
                  else
                    .ok { fd4 with
                      energy_scale :=
                        (List.range n.toNat).map
                          (fun i : Nat =>
                            (fd4.calibration_abs + fd4.calibration_lin * (i : ℚ)) / 1000) }
              | _, _ => .error .nameError

/-- Function `bruker_spx_import`: parse the document, walk it, post-process.
The `except TypeError` arm around the parse is modelled separately (see
`spx_typeerror_handler`): the input here is an already-parsed tree.  Note
that, unlike every other decoder/encoder, this function never touches the six
scratch fields and performs no `reset_to_default_values`. -/
def bruker_spx_import (root : Xml) (fd0 : FittingData) : Except PyErr FittingData :=
  match spxTraverse root fd0 with
  | .error er => .error er
  | .ok st => spxPost st.1 st.2

/-- Attribute names a `FittingData` instance has: the instance attribute set
in `__init__` plus the class attributes (Python is case-sensitive). -/
def fittingDataAttributeNames : List String :=
  ["file_name", "calibration_abs", "calibration_lin", "channels", "data_lines",
   "date_measure", "detector_thickness", "detector_type", "energy_scale",
   "file_content", "file_line", "file_lines", "file_status", "header_lines",
   "modification", "life_time_in_ms", "line_count", "mn_fwhm", "no_channels",
   "pulse_density", "real_time_in_ms", "replace_lines", "shaping_time",
   "si_dead_layer", "start_count", "time_measure", "window_type"]

/-- Body of the `except TypeError` arm of `bruker_spx_import`: it evaluates
`fitting_data.FileName` to build the diagnostic message; Python attribute
lookup raises `AttributeError` when the name is not among the record's
attributes, in which case no message is produced. -/
def spx_typeerror_handler (fd : FittingData) : Except PyErr String :=
  if fittingDataAttributeNames.contains "FileName" then
    .ok ("Unable to open and parse input definition file: " ++ fd.file_name)
  else .error .attributeError

/-- Function `bruker_spx_to_txt_convert`, restricted to its effect on the
record and its success: it runs `bruker_spx_import`, then builds the text
header locally (reading the record but never writing it) and writes it out;
the per-channel loop indexes `energy_scale[index]` and `channels[index]` for
every `index < int(no_channels)`, raising `IndexError` when an array is
shorter.  The emitted text itself renders floats with `str`/`%`-formatting
(shortest-round-trip decimal repr of binary doubles), which has no exact `ℚ`
counterpart and is not modelled; no claim reads the converted text. -/
def bruker_spx_to_txt_convert (root : Xml) (fd0 : FittingData) :
    Except PyErr FittingData :=
  match bruker_spx_import root fd0 with
  | .error er => .error er
  | .ok fd1 =>
    match pyInt fd1.no_channels with
    | none => .error .valueError
    | some n =>
      if n.toNat ≤ fd1.energy_scale.length ∧ n.toNat ≤ fd1.channels.length then .ok fd1
      else .error .indexError

/-! Concrete sample inputs and their decoded records, used to instantiate the
theorems below on closed terms. -/

/-- Well-formed tabular text file: 20 filler header lines, the column-header
line, and two data rows; the column header sits at the default boundary. -/
def txtSampleLines : List String :=
  (List.replicate 20 "h\n") ++ ["Energy     Counts\n", "1.0    100\n", "2.0    200\n"]

/-- Record bound to the sample text file. -/
def txtSampleFd : FittingData := { file_name := "test.txt" }

/-- Result of decoding the sample text file. -/
def txtSampleOut : FittingData :=
  match bruker_txt_import txtSampleLines txtSampleFd with
  | .ok fd => fd
  | .error _ => { file_name := "" }

/-- Result of the modify-in-place re-encode of the sample text file, decoded
first. -/
def txtSampleMod : FittingData × List String :=
  match bruker_txt_mod txtSampleLines txtSampleOut with
  | .ok r => r
  | .error _ => ({ file_name := "" }, [])

/-- Text file with `"Counts"` on two different lines (0-based indices 2 and
5), 22 lines in all so that the default fast-path probe at index 21 is
in range (and fails). -/
def txtDupCountsLines : List String :=
  ["h0\n", "h1\n", "x Counts x\n", "h3\n", "h4\n", "y Counts y\n"] ++
    List.replicate 16 "f\n"

/-- Record bound to the two-match text file. -/
def txtDupFd : FittingData := { file_name := "dup.txt", file_lines := txtDupCountsLines }

/-- Result of `txt_start_count` on the two-match record. -/
def txtDupOut : FittingData :=
  match txt_start_count txtDupFd with
  | .ok fd => fd
  | .error _ => { file_name := "" }

/-- Record whose `start_count` line already contains `"Counts"` (fast path). -/
def txtFastFd : FittingData :=
  { file_name := "fast.txt", file_lines := ["a\n", "Energy Counts\n"], start_count := 1 }

/-- Record bound to the sample SPX file whose scratch field `file_lines` is
dirty on entry (as a record is left by a decoder that raised mid-parse). -/
def spxDirtyFd : FittingData := { file_name := "test2.spx", file_lines := ["stale\n"] }

/-- Well-formed MSA file with calibration markers and two channel values. -/
def msaSampleLines : List String :=
  ["#FORMAT : EMSA\n", "#XPERCHAN : 0.0100\n", "#OFFSET : 2.0\n",
   "#SPECTRUM :\n", "5, 6\n", "#ENDOFDATA\n"]

/-- Record bound to the sample MSA file. -/
def msaSampleFd : FittingData := { file_name := "test.msa" }

/-- Result of decoding the sample MSA file. -/
def msaSampleOut : FittingData :=
  match bruker_msa_import msaSampleLines msaSampleFd with
  | .ok fd => fd
  | .error _ => { file_name := "" }

/-- MSA file carrying only three channel values (fewer than 4096). -/
def msaShortLines : List String := ["#SPECTRUM :\n", "1, 2, 3\n", "#ENDOFDATA\n"]

/-- Record bound to the short MSA file. -/
def msaShortFd : FittingData := { file_name := "short.msa" }

/-- Result of decoding the short MSA file. -/
def msaShortOut : FittingData :=
  match bruker_msa_import msaShortLines msaShortFd with
  | .ok fd => fd
  | .error _ => { file_name := "" }

/-- MSA file with no `SPECTRUM` marker anywhere. -/
def msaNoMarkerLines : List String :=
  ["#FORMAT : EMSA\n", "#XPERCHAN : 0.0100\n", "1, 2, 3\n", "#ENDOFDATA\n"]

/-- The `Channels` leaf of the consistent sample SPX document. -/
def spxSampleChannelsElem : Xml :=
  .elem "Channels" [] "1,2,3,4,5,6,7,8,9,10,11,12,13,14,15,16" []

/-- Second-level node of the consistent sample SPX document: spectrum header
declaring 16 channels plus a 16-entry `Channels` list. -/
def spxSampleCi : Xml :=
  .elem "ClassInstance" [] "" [
    .elem "ClassInstance" [("Type", "TRTSpectrumHeader")] "" [
      .elem "Date" [] "26.04.2019" [],
      .elem "Time" [] "09:49:43" [],
      .elem "ChannelCount" [] "16" [],
      .elem "CalibAbs" [] "1.0" [],
      .elem "CalibLin" [] "0.01" [],
      .elem "SigmaAbs" [] "0.02" [],
      .elem "SigmaLin" [] "0.001" []
    ],
    spxSampleChannelsElem
  ]

/-- Consistent sample SPX document. -/
def spxSampleDoc : Xml := .elem "TRTSpectrum" [] "" [spxSampleCi]

/-- Record bound to the sample SPX file. -/
def spxSampleFd : FittingData := { file_name := "test2.spx" }

/-- Tree-walk state of the sample SPX document. -/
def spxSampleSt : FittingData × SpxLocals :=
  match spxTraverse spxSampleDoc spxSampleFd with
  | .ok st => st
  | .error _ => ({ file_name := "" }, {})

/-- Result of decoding the sample SPX document. -/
def spxSampleOut : FittingData :=
  match bruker_spx_import spxSampleDoc spxSampleFd with
  | .ok fd => fd
  | .error _ => { file_name := "" }

/-- Second-level node of an SPX document declaring `ChannelCount = 2` while
its `Channels` leaf lists three values. -/
def spxMismatchCi : Xml :=
  .elem "ClassInstance" [] "" [
    .elem "ClassInstance" [("Type", "TRTSpectrumHeader")] "" [
      .elem "Date" [] "26.04.2019" [],
      .elem "Time" [] "09:49:43" [],
      .elem "ChannelCount" [] "2" [],
      .elem "CalibAbs" [] "1.0" [],
      .elem "CalibLin" [] "0.01" [],
      .elem "SigmaAbs" [] "0.02" [],
      .elem "SigmaLin" [] "0.001" []
    ],
    .elem "Channels" [] "1,2,3" []
  ]

/-- SPX document whose declared channel count disagrees with its channel
list. -/
def spxMismatchDoc : Xml := .elem "TRTSpectrum" [] "" [spxMismatchCi]

/-- Result of decoding the mismatched SPX document. -/
def spxMismatchOut : FittingData :=
  match bruker_spx_import spxMismatchDoc spxSampleFd with
  | .ok fd => fd
  | .error _ => { file_name := "" }

/-- Result of decoding the sample SPX document from the dirty record. -/
def spxDirtyOut : FittingData :=
  match bruker_spx_import spxSampleDoc spxDirtyFd with
  | .ok fd => fd
  | .error _ => { file_name := "" }

/-- Result of converting the sample SPX document to text. -/
def spxConvertOut : FittingData :=
  match bruker_spx_to_txt_convert spxSampleDoc spxSampleFd with
  | .ok fd => fd
  | .error _ => { file_name := "" }

/-! Supporting lemmas. -/

theorem parseAllInt_length :
    ∀ (ts : List String) (vs : List Int), parseAllInt ts = some vs → vs.length = ts.length := by
  intro ts
  induction ts with
  | nil =>
    intro vs h
    simp only [parseAllInt, Option.some.injEq] at h
    subst h
    rfl
  | cons t ts2 ih =>
    intro vs h
    simp only [parseAllInt] at h
    split at h
    · exact absurd h (by simp)
    split at h
    · exact absurd h (by simp)
    rename_i v hv vs2 hvs2
    simp only [Option.some.injEq] at h
    subst h
    simp [ih vs2 hvs2]

theorem txtParseDataLines_length :
    ∀ (ls : List String) (ps : List (ℚ × ℚ)), txtParseDataLines ls = .ok ps →
      ps.length = ls.length := by
  intro ls
  induction ls with
  | nil =>
    intro ps h
    simp only [txtParseDataLines, Except.ok.injEq] at h
    subst h
    rfl
  | cons l ls2 ih =>
    intro ps h
    simp only [txtParseDataLines] at h
    split at h
    · exact absurd h (by simp)
    split at h
    · exact absurd h (by simp)
    rename_i p hp ps2 hps2
    simp only [Except.ok.injEq] at h
    subst h
    simp [ih ps2 hps2]

theorem spxPost_ok_spec (fd : FittingData) (loc : SpxLocals) (out : FittingData)
    (h : spxPost fd loc = .ok out) :
    ∃ ca cl n, loc.calibration_abs = some ca ∧ loc.calibration_lin = some cl ∧
      pyInt fd.no_channels = some n ∧ ¬(n < 0) ∧
      out.no_channels = fd.no_channels ∧
      out.channels = fd.channels ∧
      out.file_content = fd.file_content ∧
      out.file_line = fd.file_line ∧
      out.file_lines = fd.file_lines ∧
      out.header_lines = fd.header_lines ∧
      out.data_lines = fd.data_lines ∧
      out.replace_lines = fd.replace_lines ∧
      out.calibration_abs = 1000 * ca ∧
      out.calibration_lin = 1000 * cl ∧
      out.energy_scale =
        (List.range n.toNat).map
          (fun i : Nat => (1000 * ca + 1000 * cl * (i : ℚ)) / 1000) := by
  unfold spxPost at h
  split at h
  · exact absurd h (by simp)
  split at h
  · exact absurd h (by simp)
  split at h
  · exact absurd h (by simp)
  split at h
  · exact absurd h (by simp)
  split at h
  · exact absurd h (by simp)
  rename_i ca hca
  split at h
  · exact absurd h (by simp)
  rename_i cl hcl
  split at h
  case _ =>
    dsimp only at h
    split at h
    · exact absurd h (by simp)
    rename_i n hn
    split at h
    · exact absurd h (by simp)
    rename_i hneg
    refine ⟨ca, cl, n, hca, hcl, hn, hneg, ?_⟩
    injection h with h2
    subst h2
    simp
  case _ => exact absurd h (by simp)

theorem takeLine_eq_append_iff (pre : List Char) (hpre : ∀ c ∈ pre, c ≠ '\n') :
    ∀ cs : List Char, takeLine cs = pre ++ ['\n'] ↔ ∃ rest, cs = pre ++ '\n' :: rest := by
  induction pre with
  | nil =>
    intro cs
    cases cs with
    | nil => simp [takeLine]
    | cons c cs2 =>
      by_cases hc : c = '\n'
      · subst hc
        simp [takeLine]
      · simp [takeLine, hc]
  | cons p ps ih =>
    intro cs
    have hp : p ≠ '\n' := hpre p (List.mem_cons_self p ps)
    have hps : ∀ c ∈ ps, c ≠ '\n' := fun c hc => hpre c (List.mem_cons_of_mem p hc)
    cases cs with
    | nil => simp [takeLine]
    | cons c cs2 =>
      by_cases hc : c = '\n'
      · subst hc
        simp only [takeLine, beq_self_eq_true, if_true, List.cons_append]
        constructor
        · intro h
          exact absurd (List.cons.injEq .. ▸ h).1.symm hp
        · rintro ⟨rest, h⟩
          exact absurd ((List.cons.injEq ..).mp h).1.symm hp
      · simp [takeLine, hc, List.cons_append, ih hps cs2]

end BrukerIO

namespace BrukerIO

/-- Claim C3: `bruker_txt_test` sets `file_status` to true exactly when the
file's first line is the literal signature `"Bruker Nano GmbH Berlin,
Germany"` followed by a single newline, under exact string equality — that
is, exactly when the content starts with the signature plus newline. -/
theorem txt_sniffer_exact_signature (content : String) (fd0 : FittingData) :
    (bruker_txt_test content fd0).file_status = true ↔
      ∃ rest, content.data = "Bruker Nano GmbH Berlin, Germany".data ++ '\n' :: rest := by
  have hsig : ("Bruker Nano GmbH Berlin, Germany\n").data =
      "Bruker Nano GmbH Berlin, Germany".data ++ ['\n'] := by decide
  have hpre : ∀ c ∈ "Bruker Nano GmbH Berlin, Germany".data, c ≠ '\n' := by decide
  simp only [bruker_txt_test, reset_to_default_values, pyReadline, decide_eq_true_eq]
  constructor
  · intro h
    have hdata : takeLine content.data = "Bruker Nano GmbH Berlin, Germany".data ++ ['\n'] := by
      have := congrArg String.data h
      simpa [hsig] using this.symm
    exact (takeLine_eq_append_iff _ hpre content.data).mp hdata
  · intro h
    have hdata := (takeLine_eq_append_iff _ hpre content.data).mpr h
    apply String.ext
    simp [hsig, hdata]

/-- Claim C1 (amended): after `bruker_txt_import` the two arrays always have
equal length (the data-line count); after `bruker_spx_import` the
`energy_scale` array has the finally declared channel count as its length;
after `bruker_msa_import` the `energy_scale` array always has length 4096
while `channels` keeps one entry per parsed value, so the two agree only when
the file carries exactly 4096 values. -/
theorem decoder_array_lengths :
    (∀ (lines : List String) (fd0 out : FittingData),
        bruker_txt_import lines fd0 = .ok out →
        out.energy_scale.length = out.channels.length) ∧
    (∀ (root : Xml) (fd0 out : FittingData) (n : Int),
        bruker_spx_import root fd0 = .ok out →
        pyInt out.no_channels = some n →
        out.energy_scale.length = n.toNat) ∧
    (∀ (lines : List String) (fd0 out : FittingData),
        bruker_msa_import lines fd0 = .ok out →
        out.energy_scale.length = 4096) := by
  refine ⟨?_, ?_, ?_⟩
  · intro lines fd0 out h
    simp only [bruker_txt_import] at h
    split at h
    · exact absurd h (by simp)
    rename_i fd2 hsc
    split at h
    · exact absurd h (by simp)
    rename_i ps hps
    injection h with h2
    subst h2
    simp [reset_to_default_values]
  · intro root fd0 out n h hn
    unfold bruker_spx_import at h
    split at h
    · exact absurd h (by simp)
    rename_i st hst
    obtain ⟨ca, cl, n2, -, -, hn2, -, hnoch, -, -, -, -, -, -, -, -, -, he⟩ :=
      spxPost_ok_spec st.1 st.2 out h
    rw [hnoch, hn2] at hn
    injection hn with hn3
    subst hn3
    simp [he, List.length_map, List.length_range]
  · intro lines fd0 out h
    simp only [bruker_msa_import] at h
    split at h
    · exact absurd h (by simp)
    rename_i st hscan
    split at h
    · exact absurd h (by simp)
    rename_i k hk
    split at h
    · exact absurd h (by simp)
    rename_i ch hch
    injection h with h2
    subst h2
    simp [reset_to_default_values, List.length_map, List.length_range]

/-- Claim C1 counterexample: decoding an MSA file carrying only three channel
values succeeds and leaves `channels` with length 3 while `energy_scale` has
length 4096 — the two sequences do not have the same length after this decode
operation. -/
theorem decoder_array_lengths_counterexample :
    bruker_msa_import msaShortLines msaShortFd = .ok msaShortOut ∧
    msaShortOut.channels.length = 3 ∧
    msaShortOut.energy_scale.length = 4096 ∧
    msaShortOut.channels.length ≠ msaShortOut.energy_scale.length := by
  have he : msaShortOut.energy_scale =
      (List.range 4096).map (fun i : Nat => (-9551 / 10 : ℚ) + (i : ℚ) * 10) := rfl
  have hlen : msaShortOut.energy_scale.length = 4096 := by
    rw [he, List.length_map, List.length_range]
  have hch : msaShortOut.channels.length = 3 := rfl
  exact ⟨rfl, hch, hlen, by rw [hch, hlen]; decide⟩

/-- Claim C1 witness: the three parts of `decoder_array_lengths` instantiated
on the sample text, SPX and MSA inputs. -/
theorem decoder_array_lengths_witness :
    bruker_txt_import txtSampleLines txtSampleFd = .ok txtSampleOut ∧
    txtSampleOut.energy_scale.length = txtSampleOut.channels.length ∧
    bruker_spx_import spxSampleDoc spxSampleFd = .ok spxSampleOut ∧
    pyInt spxSampleOut.no_channels = some 16 ∧
    spxSampleOut.energy_scale.length = (16 : Int).toNat ∧
    bruker_msa_import msaSampleLines msaSampleFd = .ok msaSampleOut ∧
    msaSampleOut.energy_scale.length = 4096 := by
  have h1 : bruker_txt_import txtSampleLines txtSampleFd = .ok txtSampleOut := rfl
  have h2 : bruker_spx_import spxSampleDoc spxSampleFd = .ok spxSampleOut := rfl
  have hn : pyInt spxSampleOut.no_channels = some 16 := rfl
  have h3 : bruker_msa_import msaSampleLines msaSampleFd = .ok msaSampleOut := rfl
  exact ⟨h1, decoder_array_lengths.1 _ _ _ h1, h2, hn,
    decoder_array_lengths.2.1 _ _ _ _ h2 hn, h3, decoder_array_lengths.2.2 _ _ _ h3⟩

theorem spxTraverse_single (rt : String) (ra : List (String × String)) (rx : String)
    (ci : Xml) (fd0 : FittingData) :
    spxTraverse (.elem rt ra rx [ci]) fd0 = spxLevel2 (fd0, {}) ci := by
  cases h : spxLevel2 (fd0, ({} : SpxLocals)) ci <;>
    simp [spxTraverse, Xml.children, exceptFoldl, h]

/-- Claim C2 (amended): for an SPX document (one second-level node) whose
spectrum header declares `ChannelCount = N` and that carries a `Channels`
leaf, after `bruker_spx_import` the decoded `energy_scale` has length exactly
`N`, while `channels` is overwritten by the leaf's comma-separated list and
has that list's length — which equals `N` only when the leaf lists exactly
`N` values. -/
theorem spx_channelcount_lengths (rt : String) (ra : List (String × String)) (rx : String)
    (ci ch : Xml) (fd0 out : FittingData) (n : Int)
    (h : bruker_spx_import (.elem rt ra rx [ci]) fd0 = .ok out)
    (hch : ci.findTag "Channels" = some ch)
    (hn : pyInt out.no_channels = some n) :
    out.energy_scale.length = n.toNat ∧
    out.channels.length = (pySplitOn ',' ch.text).length := by
  unfold bruker_spx_import at h
  rw [spxTraverse_single] at h
  split at h
  · exact absurd h (by simp)
  rename_i st hst
  unfold spxLevel2 at hst
  split at hst
  · exact absurd hst (by simp)
  rename_i stA hstA
  split at hst
  · rename_i hnone
    rw [hch] at hnone
    exact absurd hnone (by simp)
  rename_i ch2 hch2
  rw [hch] at hch2
  injection hch2 with hch3
  subst hch3
  split at hst
  · exact absurd hst (by simp)
  rename_i ns hns
  injection hst with hst2
  have hnoch2 : st.1.no_channels = stA.1.no_channels := by rw [← hst2]
  have hchan2 : st.1.channels = ns.map (fun z : Int => (z : ℚ)) := by rw [← hst2]
  obtain ⟨ca, cl, n2, -, -, hn2, -, hnoch, hchan, -, -, -, -, -, -, -, -, he⟩ :=
    spxPost_ok_spec st.1 st.2 out h
  rw [hnoch, hnoch2] at hn
  rw [hnoch2] at hn2
  rw [hn2] at hn
  injection hn with hn3
  subst hn3
  constructor
  · simp [he, List.length_map, List.length_range]
  · rw [hchan, hchan2, List.length_map, parseAllInt_length _ _ hns]

/-- Claim C2 counterexample: an SPX document declaring `ChannelCount = 2`
whose `Channels` leaf lists three values decodes successfully with
`energy_scale` of length 2 but `channels` of length 3 — `channels` does not
have the declared length. -/
theorem spx_channelcount_lengths_counterexample :
    bruker_spx_import spxMismatchDoc spxSampleFd = .ok spxMismatchOut ∧
    pyInt spxMismatchOut.no_channels = some 2 ∧
    spxMismatchOut.energy_scale.length = 2 ∧
    spxMismatchOut.channels.length = 3 := by
  exact ⟨rfl, rfl, rfl, rfl⟩

/-- Claim C2 witness: `spx_channelcount_lengths` instantiated on the
consistent 16-channel sample document. -/
theorem spx_channelcount_lengths_witness :
    bruker_spx_import spxSampleDoc spxSampleFd = .ok spxSampleOut ∧
    Xml.findTag spxSampleCi "Channels" = some spxSampleChannelsElem ∧
    pyInt spxSampleOut.no_channels = some 16 ∧
    spxSampleOut.energy_scale.length = (16 : Int).toNat ∧
    spxSampleOut.channels.length = (pySplitOn ',' spxSampleChannelsElem.text).length := by
  have h : bruker_spx_import (.elem "TRTSpectrum" [] "" [spxSampleCi]) spxSampleFd =
      .ok spxSampleOut := rfl
  have hft : Xml.findTag spxSampleCi "Channels" = some spxSampleChannelsElem := rfl
  have hn : pyInt spxSampleOut.no_channels = some 16 := rfl
  obtain ⟨h1, h2⟩ := spx_channelcount_lengths "TRTSpectrum" [] "" spxSampleCi
    spxSampleChannelsElem spxSampleFd spxSampleOut 16 h hft hn
  exact ⟨h, hft, hn, h1, h2⟩

theorem bruker_spx_import_eq (root : Xml) (fd0 : FittingData)
    (st : FittingData × SpxLocals) (hst : spxTraverse root fd0 = .ok st) :
    bruker_spx_import root fd0 = spxPost st.1 st.2 := by
  unfold bruker_spx_import
  rw [hst]

/-- Claim C6: whenever `bruker_spx_import` succeeds and the tree walk read
`CalibAbs = a` and `CalibLin = l`, the decoded record has
`calibration_abs = 1000 * a` and `calibration_lin = 1000 * l`, and for every
index `i` below the declared channel count
`energy_scale[i] = (calibration_abs + calibration_lin * i) / 1000`.  With
`CalibAbs = 1.0` and `CalibLin = 0.01` this gives `calibration_abs = 1000`,
`calibration_lin = 10`, `energy_scale[0] = 1` and `energy_scale[10] = 1.1`
(see the witness). -/
theorem spx_calibration_rescale (root : Xml) (fd0 : FittingData)
    (st : FittingData × SpxLocals) (out : FittingData) (a l : ℚ) (n : Int)
    (hst : spxTraverse root fd0 = .ok st)
    (ha : st.2.calibration_abs = some a)
    (hl : st.2.calibration_lin = some l)
    (h : bruker_spx_import root fd0 = .ok out)
    (hn : pyInt out.no_channels = some n) :
    out.calibration_abs = 1000 * a ∧
    out.calibration_lin = 1000 * l ∧
    out.energy_scale.length = n.toNat ∧
    ∀ i : Nat, i < n.toNat →
      out.energy_scale[i]? =
        some ((out.calibration_abs + out.calibration_lin * (i : ℚ)) / 1000) := by
  rw [bruker_spx_import_eq root fd0 st hst] at h
  obtain ⟨ca, cl, n2, hca, hcl, hn2, -, hnoch, -, -, -, -, -, -, -, hcab, hclin, he⟩ :=
    spxPost_ok_spec st.1 st.2 out h
  rw [ha] at hca
  injection hca with hca2
  subst hca2
  rw [hl] at hcl
  injection hcl with hcl2
  subst hcl2
  rw [hnoch, hn2] at hn
  injection hn with hn3
  subst hn3
  refine ⟨hcab, hclin, by simp [he, List.length_map, List.length_range], ?_⟩
  intro i hi
  rw [he, hcab, hclin, List.getElem?_map, List.getElem?_range hi]
  rfl

/-- Claim C6 witness: `spx_calibration_rescale` instantiated on the sample
SPX document (`CalibAbs = 1.0`, `CalibLin = 0.01`, 16 declared channels),
giving `calibration_abs = 1000`, `calibration_lin = 10`, `energy_scale[0] = 1`
and `energy_scale[10] = 1.1`. -/
theorem spx_calibration_rescale_witness :
    spxTraverse spxSampleDoc spxSampleFd = .ok spxSampleSt ∧
    spxSampleSt.2.calibration_abs = some 1 ∧
    spxSampleSt.2.calibration_lin = some (1 / 100) ∧
    bruker_spx_import spxSampleDoc spxSampleFd = .ok spxSampleOut ∧
    pyInt spxSampleOut.no_channels = some 16 ∧
    spxSampleOut.calibration_abs = 1000 * 1 ∧
    spxSampleOut.calibration_lin = 1000 * (1 / 100) ∧
    spxSampleOut.energy_scale.length = (16 : Int).toNat ∧
    spxSampleOut.energy_scale[0]? = some 1 ∧
    spxSampleOut.energy_scale[10]? = some (11 / 10) := by
  have hst : spxTraverse spxSampleDoc spxSampleFd = .ok spxSampleSt := rfl
  have e1 : digitsToNat ['1'] = 1 := rfl
  have e0 : digitsToNat ['0'] = 0 := rfl
  have ha : spxSampleSt.2.calibration_abs = some 1 := by
    have h0 : spxSampleSt.2.calibration_abs =
        some ((digitsToNat ['1'] : ℚ) + (digitsToNat ['0'] : ℚ) / (10 : ℚ) ^ 1) := rfl
    rw [h0, e1, e0]
    norm_num
  have hl : spxSampleSt.2.calibration_lin = some (1 / 100) := by
    have h0 : spxSampleSt.2.calibration_lin =
        some ((digitsToNat ['0'] : ℚ) + (digitsToNat ['0', '1'] : ℚ) / (10 : ℚ) ^ 2) := rfl
    have e01 : digitsToNat ['0', '1'] = 1 := rfl
    rw [h0, e0, e01]
    norm_num
  have h : bruker_spx_import spxSampleDoc spxSampleFd = .ok spxSampleOut := rfl
  have hn : pyInt spxSampleOut.no_channels = some 16 := rfl
  obtain ⟨hcab, hclin, hlen, hall⟩ :=
    spx_calibration_rescale spxSampleDoc spxSampleFd spxSampleSt spxSampleOut 1 (1 / 100) 16
      hst ha hl h hn
  have h0 := hall 0 (by norm_num)
  rw [hcab, hclin] at h0
  norm_num at h0
  have h10 := hall 10 (by norm_num)
  rw [hcab, hclin] at h10
  norm_num at h10
  exact ⟨hst, ha, hl, h, hn, hcab, hclin, hlen, h0, h10⟩

theorem msaScan_marker_preserved :
    ∀ (ls : List String) (st res : FittingData × Option Nat),
      exceptFoldl msaScanLine st ls = .ok res →
      (∀ l ∈ ls, containsSub "SPECTRUM" l = false) →
      res.2 = st.2 := by
  intro ls
  induction ls with
  | nil =>
    intro st res hok hno
    simp only [exceptFoldl, Except.ok.injEq] at hok
    rw [← hok]
  | cons l ls2 ih =>
    intro st res hok hno
    simp only [exceptFoldl] at hok
    split at hok
    · exact absurd hok (by simp)
    rename_i st2 hstep
    have hl : containsSub "SPECTRUM" l = false := hno l (List.mem_cons_self l ls2)
    have hrest : ∀ x ∈ ls2, containsSub "SPECTRUM" x = false :=
      fun x hx => hno x (List.mem_cons_of_mem l hx)
    have h2 : st2.2 = st.2 := by
      unfold msaScanLine at hstep
      split at hstep
      · exact absurd hstep (by simp)
      split at hstep
      · exact absurd hstep (by simp)
      injection hstep with hstep2
      rw [← hstep2, hl]
      simp
    rw [ih st2 res hok hrest, h2]

/-- Claim C9: on an MSA input none of whose lines contains the `"SPECTRUM"`
marker, `bruker_msa_import` fails (the local `start_msa` is never bound, so
slicing the data lines raises) — it never returns a spectrum, empty or
otherwise. -/
theorem msa_missing_spectrum_fails (lines : List String) (fd0 : FittingData)
    (h : ∀ l ∈ lines, containsSub "SPECTRUM" l = false) :
    pyIsOk (bruker_msa_import lines fd0) = false := by
  simp only [bruker_msa_import]
  split
  · rfl
  rename_i fd2 startMsa hscan
  have h2 := msaScan_marker_preserved lines _ _ hscan h
  simp only at h2
  subst h2
  rfl

/-- Claim C9 witness: `msa_missing_spectrum_fails` applied to a concrete MSA
file with no `SPECTRUM` line. -/
theorem msa_missing_spectrum_fails_witness :
    (∀ l ∈ msaNoMarkerLines, containsSub "SPECTRUM" l = false) ∧
    pyIsOk (bruker_msa_import msaNoMarkerLines msaSampleFd) = false :=
  ⟨by decide, msa_missing_spectrum_fails msaNoMarkerLines msaSampleFd (by decide)⟩

theorem exceptFoldl_append {σ α : Type} (f : σ → α → Except PyErr σ) (xs ys : List α)
    (s : σ) :
    exceptFoldl f s (xs ++ ys) =
      match exceptFoldl f s xs with
      | .error e => .error e
      | .ok s2 => exceptFoldl f s2 ys := by
  induction xs generalizing s with
  | nil => simp [exceptFoldl]
  | cons a xs2 ih =>
    simp only [List.cons_append, exceptFoldl]
    cases f s a with
    | error e => rfl
    | ok s2 => exact ih s2

theorem msaXperchanStep_skip (line : String) (fd : FittingData)
    (hl : containsSub "XPERCHAN" line = false) :
    msaXperchanStep line fd = .ok fd := by
  simp [msaXperchanStep, hl]

theorem msaXperchanStep_cab (line : String) (fd fd2 : FittingData)
    (h : msaXperchanStep line fd = .ok fd2) :
    fd2.calibration_abs = fd.calibration_abs := by
  unfold msaXperchanStep at h
  split at h
  · split at h
    · exact absurd h (by simp)
    split at h
    · exact absurd h (by simp)
    injection h with h2
    rw [← h2]
  · injection h with h2
    rw [← h2]

theorem msaXperchanStep_set (line : String) (fd fd2 : FittingData)
    (hl : containsSub "XPERCHAN" line = true)
    (h : msaXperchanStep line fd = .ok fd2) :
    ∃ t v, (pySplitOn ':' line).get? 1 = some t ∧ pyFloat t = some v ∧
      fd2.calibration_lin = 1000 * v := by
  unfold msaXperchanStep at h
  rw [hl] at h
  simp only [if_true] at h
  split at h
  · exact absurd h (by simp)
  rename_i t ht
  split at h
  · exact absurd h (by simp)
  rename_i v hv
  injection h with h2
  exact ⟨t, v, ht, hv, by rw [← h2]⟩

theorem msaOffsetStep_skip (line : String) (fd : FittingData)
    (hl : containsSub "OFFSET" line = false) :
    msaOffsetStep line fd = .ok fd := by
  simp [msaOffsetStep, hl]

theorem msaOffsetStep_clin (line : String) (fd fd2 : FittingData)
    (h : msaOffsetStep line fd = .ok fd2) :
    fd2.calibration_lin = fd.calibration_lin := by
  unfold msaOffsetStep at h
  split at h
  · split at h
    · exact absurd h (by simp)
    split at h
    · exact absurd h (by simp)
    injection h with h2
    rw [← h2]
  · injection h with h2
    rw [← h2]

theorem msaOffsetStep_set (line : String) (fd fd2 : FittingData)
    (hl : containsSub "OFFSET" line = true)
    (h : msaOffsetStep line fd = .ok fd2) :
    ∃ t v, (pySplitOn ':' line).get? 1 = some t ∧ pyFloat t = some v ∧
      fd2.calibration_abs = -10 * v := by
  unfold msaOffsetStep at h
  rw [hl] at h
  simp only [if_true] at h
  split at h
  · exact absurd h (by simp)
  rename_i t ht
  split at h
  · exact absurd h (by simp)
  rename_i v hv
  injection h with h2
  exact ⟨t, v, ht, hv, by rw [← h2]⟩

theorem msaScanLine_ok (st : FittingData × Option Nat) (line : String)
    (st2 : FittingData × Option Nat) (h : msaScanLine st line = .ok st2) :
    ∃ fd2 fd3,
      msaXperchanStep line
        { st.1 with file_line := line, line_count := st.1.line_count + 1 } = .ok fd2 ∧
      msaOffsetStep line fd2 = .ok fd3 ∧
      st2.1 = fd3 ∧
      st2.2 = (if containsSub "SPECTRUM" line then some fd3.line_count else st.2) := by
  unfold msaScanLine at h
  split at h
  · exact absurd h (by simp)
  rename_i fd2 heq1
  split at h
  · exact absurd h (by simp)
  rename_i fd3 heq2
  injection h with h2
  exact ⟨fd2, fd3, heq1, heq2, by rw [← h2], by rw [← h2]⟩

theorem msaScan_clin_preserved :
    ∀ (ls : List String) (st res : FittingData × Option Nat),
      exceptFoldl msaScanLine st ls = .ok res →
      (∀ l ∈ ls, containsSub "XPERCHAN" l = false) →
      res.1.calibration_lin = st.1.calibration_lin := by
  intro ls
  induction ls with
  | nil =>
    intro st res hok hno
    simp only [exceptFoldl, Except.ok.injEq] at hok
    rw [← hok]
  | cons l ls2 ih =>
    intro st res hok hno
    simp only [exceptFoldl] at hok
    split at hok
    · exact absurd hok (by simp)
    rename_i st2 hstep
    obtain ⟨fd2, fd3, heq1, heq2, h31, -⟩ := msaScanLine_ok st l st2 hstep
    rw [msaXperchanStep_skip l _ (hno l (List.mem_cons_self l ls2))] at heq1
    injection heq1 with heq12
    have hc : st2.1.calibration_lin = st.1.calibration_lin := by
      rw [h31, msaOffsetStep_clin l fd2 fd3 heq2, ← heq12]
    rw [ih st2 res hok (fun x hx => hno x (List.mem_cons_of_mem l hx)), hc]

theorem msaScan_cab_preserved :
    ∀ (ls : List String) (st res : FittingData × Option Nat),
      exceptFoldl msaScanLine st ls = .ok res →
      (∀ l ∈ ls, containsSub "OFFSET" l = false) →
      res.1.calibration_abs = st.1.calibration_abs := by
  intro ls
  induction ls with
  | nil =>
    intro st res hok hno
    simp only [exceptFoldl, Except.ok.injEq] at hok
    rw [← hok]
  | cons l ls2 ih =>
    intro st res hok hno
    simp only [exceptFoldl] at hok
    split at hok
    · exact absurd hok (by simp)
    rename_i st2 hstep
    obtain ⟨fd2, fd3, heq1, heq2, h31, -⟩ := msaScanLine_ok st l st2 hstep
    rw [msaOffsetStep_skip l _ (hno l (List.mem_cons_self l ls2))] at heq2
    injection heq2 with heq22
    have hc : st2.1.calibration_abs = st.1.calibration_abs := by
      rw [h31, ← heq22, msaXperchanStep_cab l _ fd2 heq1]
    rw [ih st2 res hok (fun x hx => hno x (List.mem_cons_of_mem l hx)), hc]

theorem msaScan_clin_last (pre : List String) (lk : String) (post : List String)
    (st res : FittingData × Option Nat)
    (hok : exceptFoldl msaScanLine st (pre ++ lk :: post) = .ok res)
    (hlk : containsSub "XPERCHAN" lk = true)
    (hpost : ∀ l ∈ post, containsSub "XPERCHAN" l = false) :
    ∃ t v, (pySplitOn ':' lk).get? 1 = some t ∧ pyFloat t = some v ∧
      res.1.calibration_lin = 1000 * v := by
  rw [exceptFoldl_append] at hok
  split at hok
  · exact absurd hok (by simp)
  rename_i stm hpre
  simp only [exceptFoldl] at hok
  split at hok
  · exact absurd hok (by simp)
  rename_i st2 hstep
  obtain ⟨fd2, fd3, heq1, heq2, h31, -⟩ := msaScanLine_ok stm lk st2 hstep
  obtain ⟨t, v, ht, hv, hclin⟩ := msaXperchanStep_set lk _ fd2 hlk heq1
  refine ⟨t, v, ht, hv, ?_⟩
  rw [msaScan_clin_preserved post st2 res hok hpost, h31,
    msaOffsetStep_clin lk fd2 fd3 heq2, hclin]

theorem msaScan_cab_last (pre : List String) (lk : String) (post : List String)
    (st res : FittingData × Option Nat)
    (hok : exceptFoldl msaScanLine st (pre ++ lk :: post) = .ok res)
    (hlk : containsSub "OFFSET" lk = true)
    (hpost : ∀ l ∈ post, containsSub "OFFSET" l = false) :
    ∃ t v, (pySplitOn ':' lk).get? 1 = some t ∧ pyFloat t = some v ∧
      res.1.calibration_abs = -10 * v := by
  rw [exceptFoldl_append] at hok
  split at hok
  · exact absurd hok (by simp)
  rename_i stm hpre
  simp only [exceptFoldl] at hok
  split at hok
  · exact absurd hok (by simp)
  rename_i st2 hstep
  obtain ⟨fd2, fd3, heq1, heq2, h31, -⟩ := msaScanLine_ok stm lk st2 hstep
  obtain ⟨t, v, ht, hv, hcab⟩ := msaOffsetStep_set lk fd2 fd3 hlk heq2
  refine ⟨t, v, ht, hv, ?_⟩
  rw [msaScan_cab_preserved post st2 res hok hpost, h31, hcab]

theorem bruker_msa_import_ok_spec (lines : List String) (fd0 out : FittingData)
    (h : bruker_msa_import lines fd0 = .ok out) :
    ∃ (st : FittingData × Option Nat) (k : Nat) (ch : List ℚ),
      exceptFoldl msaScanLine
        ({ fd0 with file_content := pyJoin "" lines, file_lines := lines, line_count := 0 },
          none) lines = .ok st ∧
      st.2 = some k ∧
      parseAllFloat (pySplitOn ',' (removeNewlines (pyJoin "" ((lines.drop k).dropLast)))) =
        some ch ∧
      out.calibration_abs = st.1.calibration_abs ∧
      out.calibration_lin = st.1.calibration_lin ∧
      out.channels = ch ∧
      out.energy_scale =
        (List.range 4096).map
          (fun i : Nat => st.1.calibration_abs + (i : ℚ) * st.1.calibration_lin) := by
  simp only [bruker_msa_import] at h
  split at h
  · exact absurd h (by simp)
  rename_i fd2 startMsa hscan
  split at h
  · exact absurd h (by simp)
  rename_i k
  split at h
  · exact absurd h (by simp)
  rename_i ch hch
  injection h with h2
  subst h2
  exact ⟨(fd2, some k), k, ch, hscan, rfl, hch, by simp [reset_to_default_values],
    by simp [reset_to_default_values], by simp [reset_to_default_values],
    by simp [reset_to_default_values]⟩

/-- Claim C7: in `bruker_msa_import`, an `"XPERCHAN"` line sets
`calibration_lin` to 1000 times the float after the colon, an `"OFFSET"` line
sets `calibration_abs` to −10 times the float after the colon (each stated at
the last such line, which is the value that survives the scan), and
`energy_scale` is synthesized as exactly 4096 values with
`energy_scale[i] = calibration_abs + i * calibration_lin` (no division by
1000), regardless of how many channel values were parsed. -/
theorem msa_marker_semantics :
    (∀ (lines : List String) (fd0 out : FittingData) (pre : List String) (lk : String)
        (post : List String) (t : String) (v : ℚ),
        lines = pre ++ lk :: post →
        containsSub "XPERCHAN" lk = true →
        (∀ l ∈ post, containsSub "XPERCHAN" l = false) →
        bruker_msa_import lines fd0 = .ok out →
        (pySplitOn ':' lk).get? 1 = some t →
        pyFloat t = some v →
        out.calibration_lin = 1000 * v) ∧
    (∀ (lines : List String) (fd0 out : FittingData) (pre : List String) (lk : String)
        (post : List String) (t : String) (v : ℚ),
        lines = pre ++ lk :: post →
        containsSub "OFFSET" lk = true →
        (∀ l ∈ post, containsSub "OFFSET" l = false) →
        bruker_msa_import lines fd0 = .ok out →
        (pySplitOn ':' lk).get? 1 = some t →
        pyFloat t = some v →
        out.calibration_abs = -10 * v) ∧
    (∀ (lines : List String) (fd0 out : FittingData),
        bruker_msa_import lines fd0 = .ok out →
        out.energy_scale.length = 4096 ∧
        ∀ i : Nat, i < 4096 →
          out.energy_scale[i]? =
            some (out.calibration_abs + (i : ℚ) * out.calibration_lin)) := by
  refine ⟨?_, ?_, ?_⟩
  · intro lines fd0 out pre lk post t v hsplit hlk hpost h ht hv
    obtain ⟨st, k, ch, hscan, -, -, -, hclin, -, -⟩ := bruker_msa_import_ok_spec lines fd0 out h
    rw [hsplit] at hscan
    obtain ⟨t2, v2, ht2, hv2, hres⟩ := msaScan_clin_last pre lk post _ st hscan hlk hpost
    rw [ht] at ht2
    injection ht2 with ht3
    subst ht3
    rw [hv] at hv2
    injection hv2 with hv3
    subst hv3
    rw [hclin, hres]
  · intro lines fd0 out pre lk post t v hsplit hlk hpost h ht hv
    obtain ⟨st, k, ch, hscan, -, -, hcab, -, -, -⟩ := bruker_msa_import_ok_spec lines fd0 out h
    rw [hsplit] at hscan
    obtain ⟨t2, v2, ht2, hv2, hres⟩ := msaScan_cab_last pre lk post _ st hscan hlk hpost
    rw [ht] at ht2
    injection ht2 with ht3
    subst ht3
    rw [hv] at hv2
    injection hv2 with hv3
    subst hv3
    rw [hcab, hres]
  · intro lines fd0 out h
    obtain ⟨st, k, ch, -, -, -, hcab, hclin, -, he⟩ := bruker_msa_import_ok_spec lines fd0 out h
    constructor
    · rw [he, List.length_map, List.length_range]
    · intro i hi
      rw [he, hcab, hclin, List.getElem?_map, List.getElem?_range hi]
      rfl

/-- Claim C7 witness: `msa_marker_semantics` instantiated on the sample MSA
file (`XPERCHAN : 0.0100`, `OFFSET : 2.0`), giving `calibration_lin = 10`,
`calibration_abs = -20`, a 4096-point energy scale and
`energy_scale[1] = -10`. -/
theorem msa_marker_semantics_witness :
    msaSampleLines =
      ["#FORMAT : EMSA\n"] ++ "#XPERCHAN : 0.0100\n" ::
        ["#OFFSET : 2.0\n", "#SPECTRUM :\n", "5, 6\n", "#ENDOFDATA\n"] ∧
    bruker_msa_import msaSampleLines msaSampleFd = .ok msaSampleOut ∧
    pyFloat " 0.0100\n" = some (1 / 100) ∧
    pyFloat " 2.0\n" = some 2 ∧
    msaSampleOut.calibration_lin = 1000 * (1 / 100) ∧
    msaSampleOut.calibration_abs = -10 * 2 ∧
    msaSampleOut.energy_scale.length = 4096 ∧
    msaSampleOut.energy_scale[1]? =
      some (msaSampleOut.calibration_abs + (1 : ℚ) * msaSampleOut.calibration_lin) := by
  have hsplit : msaSampleLines =
      ["#FORMAT : EMSA\n"] ++ "#XPERCHAN : 0.0100\n" ::
        ["#OFFSET : 2.0\n", "#SPECTRUM :\n", "5, 6\n", "#ENDOFDATA\n"] := rfl
  have h : bruker_msa_import msaSampleLines msaSampleFd = .ok msaSampleOut := rfl
  have hv1 : pyFloat " 0.0100\n" = some (1 / 100) := by
    have h0 : pyFloat " 0.0100\n" =
        some ((digitsToNat ['0'] : ℚ) + (digitsToNat ['0', '1', '0', '0'] : ℚ) / (10 : ℚ) ^ 4) :=
      rfl
    have e1 : digitsToNat ['0'] = 0 := rfl
    have e2 : digitsToNat ['0', '1', '0', '0'] = 100 := rfl
    rw [h0, e1, e2]
    norm_num
  have hv2 : pyFloat " 2.0\n" = some 2 := by
    have h0 : pyFloat " 2.0\n" =
        some ((digitsToNat ['2'] : ℚ) + (digitsToNat ['0'] : ℚ) / (10 : ℚ) ^ 1) := rfl
    have e1 : digitsToNat ['2'] = 2 := rfl
    have e2 : digitsToNat ['0'] = 0 := rfl
    rw [h0, e1, e2]
    norm_num
  have hclin := msa_marker_semantics.1 msaSampleLines msaSampleFd msaSampleOut
    ["#FORMAT : EMSA\n"] "#XPERCHAN : 0.0100\n"
    ["#OFFSET : 2.0\n", "#SPECTRUM :\n", "5, 6\n", "#ENDOFDATA\n"] " 0.0100\n" (1 / 100)
    hsplit (by decide) (by decide) h rfl hv1
  have hcab := msa_marker_semantics.2.1 msaSampleLines msaSampleFd msaSampleOut
    ["#FORMAT : EMSA\n", "#XPERCHAN : 0.0100\n"] "#OFFSET : 2.0\n"
    ["#SPECTRUM :\n", "5, 6\n", "#ENDOFDATA\n"] " 2.0\n" 2
    rfl (by decide) (by decide) h rfl hv2
  obtain ⟨hlen, hall⟩ := msa_marker_semantics.2.2 msaSampleLines msaSampleFd msaSampleOut h
  exact ⟨hsplit, h, hv1, hv2, hclin, hcab, hlen, hall 1 (by norm_num)⟩

theorem txtScanStep_line_count (fd : FittingData) (l : String) :
    (txtScanStep fd l).line_count = fd.line_count + 1 := by
  simp only [txtScanStep]
  split
  · split <;> rfl
  · rfl

theorem txtScanStep_file_lines (fd : FittingData) (l : String) :
    (txtScanStep fd l).file_lines = fd.file_lines := by
  simp only [txtScanStep]
  split
  · split <;> rfl
  · rfl

theorem txtScanStep_start_of_not (fd : FittingData) (l : String)
    (hl : containsSub "Counts" l = false) :
    (txtScanStep fd l).start_count = fd.start_count := by
  simp [txtScanStep, hl]

theorem txtScanStep_start_of_counts (fd : FittingData) (l : String)
    (hl : containsSub "Counts" l = true) :
    (txtScanStep fd l).start_count = fd.line_count + 1 := by
  simp only [txtScanStep, hl, if_true]
  split
  · rfl
  · rename_i h
    simp only [ne_eq, not_not] at h
    exact h

theorem txtScanLoop_line_count :
    ∀ (ls : List String) (fd : FittingData),
      (txtScanLoop fd ls).line_count = fd.line_count + ls.length := by
  intro ls
  induction ls with
  | nil => intro fd; simp [txtScanLoop]
  | cons l ls2 ih =>
    intro fd
    simp only [txtScanLoop]
    rw [ih (txtScanStep fd l), txtScanStep_line_count]
    simp only [List.length_cons]
    omega

theorem txtScanLoop_file_lines :
    ∀ (ls : List String) (fd : FittingData),
      (txtScanLoop fd ls).file_lines = fd.file_lines := by
  intro ls
  induction ls with
  | nil => intro fd; rfl
  | cons l ls2 ih =>
    intro fd
    simp only [txtScanLoop]
    rw [ih (txtScanStep fd l), txtScanStep_file_lines]

theorem txtScanLoop_start_preserved :
    ∀ (ls : List String) (fd : FittingData),
      (∀ l ∈ ls, containsSub "Counts" l = false) →
      (txtScanLoop fd ls).start_count = fd.start_count := by
  intro ls
  induction ls with
  | nil => intro fd _; rfl
  | cons l ls2 ih =>
    intro fd hno
    simp only [txtScanLoop]
    rw [ih (txtScanStep fd l) (fun x hx => hno x (List.mem_cons_of_mem l hx)),
      txtScanStep_start_of_not fd l (hno l (List.mem_cons_self l ls2))]

theorem txtScanLoop_start_last :
    ∀ (pre : List String) (lk : String) (post : List String) (fd : FittingData),
      containsSub "Counts" lk = true →
      (∀ l ∈ post, containsSub "Counts" l = false) →
      (txtScanLoop fd (pre ++ lk :: post)).start_count = fd.line_count + pre.length + 1 := by
  intro pre
  induction pre with
  | nil =>
    intro lk post fd hlk hpost
    simp only [List.nil_append, txtScanLoop]
    rw [txtScanLoop_start_preserved post (txtScanStep fd lk) hpost,
      txtScanStep_start_of_counts fd lk hlk]
    simp
  | cons p pre2 ih =>
    intro lk post fd hlk hpost
    simp only [List.cons_append, txtScanLoop, List.append_eq]
    rw [ih lk post (txtScanStep fd p) hlk hpost, txtScanStep_line_count]
    simp only [List.length_cons]
    omega

theorem exists_last_match (p : String → Bool) :
    ∀ ls : List String, ls.any p = true →
      ∃ pre lk post, ls = pre ++ lk :: post ∧ p lk = true ∧ ∀ l ∈ post, p l = false := by
  intro ls
  induction ls with
  | nil => intro h; exact absurd h (by simp)
  | cons a ls2 ih =>
    intro h
    by_cases h2 : ls2.any p = true
    · obtain ⟨pre, lk, post, hsp, hlk, hpost⟩ := ih h2
      exact ⟨a :: pre, lk, post, by rw [hsp, List.cons_append], hlk, hpost⟩
    · have hpost : ∀ l ∈ ls2, p l = false := by
        intro l hl
        by_contra hc
        exact h2 (List.any_eq_true.mpr ⟨l, hl, by
          cases hpl : p l
          · exact absurd hpl hc
          · rfl⟩)
      have hpa : p a = true := by
        rw [List.any_cons] at h
        cases hpa2 : p a
        · rw [hpa2] at h
          simp only [Bool.false_or] at h
          exact absurd h h2
        · rfl
      exact ⟨[], a, ls2, rfl, hpa, hpost⟩

/-- Claim C5 (amended): in `txt_start_count`, if the line at the current
`start_count` (default 21) contains `"Counts"`, `start_count` is kept as is;
otherwise every line is scanned and the LAST line containing `"Counts"` (not
the first — the loop has no break, so a later match overwrites an earlier
one) is taken as the column-header line, and the parsed data lines begin on
the line immediately after that line (never including it). -/
theorem txt_start_count_semantics :
    (∀ (fd : FittingData) (l : String),
        fd.file_lines.get? fd.start_count = some l →
        containsSub "Counts" l = true →
        txt_start_count fd = .ok fd) ∧
    (∀ (fd : FittingData) (l : String) (pre : List String) (lk : String)
        (post : List String) (fd2 : FittingData),
        fd.file_lines.get? fd.start_count = some l →
        containsSub "Counts" l = false →
        fd.file_lines = pre ++ lk :: post →
        containsSub "Counts" lk = true →
        (∀ x ∈ post, containsSub "Counts" x = false) →
        txt_start_count fd = .ok fd2 →
        fd2.start_count = pre.length + 1 ∧
        fd2.file_lines.drop fd2.start_count = post) := by
  constructor
  · intro fd l hget hc
    unfold txt_start_count
    rw [hget]
    simp [hc]
  · intro fd l pre lk post fd2 hget hc hsplit hlk hpost h
    unfold txt_start_count at h
    rw [hget] at h
    simp only [hc, Bool.false_eq_true, if_false, Except.ok.injEq] at h
    subst h
    have hstart : (txtScanLoop { fd with line_count := 0 } fd.file_lines).start_count =
        pre.length + 1 := by
      rw [hsplit, txtScanLoop_start_last pre lk post _ hlk hpost]
      simp
    refine ⟨hstart, ?_⟩
    rw [hstart, txtScanLoop_file_lines, hsplit]
    have hsp2 : pre ++ lk :: post = (pre ++ [lk]) ++ post := by simp
    rw [hsp2]
    have hlen : pre.length + 1 = (pre ++ [lk]).length := by simp
    rw [hlen, List.drop_left]

/-- Claim C5 counterexample: a file whose lines 2 and 5 (0-based) both contain
`"Counts"` (and whose line at the default `start_count = 21` does not).  The
claim predicts the first match, line 2, as column header and hence
`start_count = 3`; the code scans on and keeps the last match, yielding
`start_count = 6`. -/
theorem txt_start_count_counterexample :
    txt_start_count txtDupFd = .ok txtDupOut ∧
    txtDupOut.start_count = 6 ∧
    txtDupCountsLines.get? 2 = some "x Counts x\n" ∧
    containsSub "Counts" "x Counts x\n" = true ∧
    (txtDupCountsLines.take 2).all (fun l => !(containsSub "Counts" l)) = true ∧
    txtDupOut.start_count ≠ 2 + 1 := by
  exact ⟨rfl, rfl, rfl, by decide, by decide, by decide⟩

/-- Claim C5 witness: both parts of `txt_start_count_semantics` instantiated —
the fast path on a record whose `start_count` line contains `"Counts"`, and
the slow path on the two-match sample, landing one line after the last
match. -/
theorem txt_start_count_semantics_witness :
    txt_start_count txtFastFd = .ok txtFastFd ∧
    txt_start_count txtDupFd = .ok txtDupOut ∧
    txtDupOut.start_count = 5 + 1 ∧
    txtDupOut.file_lines.drop txtDupOut.start_count = List.replicate 16 "f\n" := by
  have h1 : txtFastFd.file_lines.get? txtFastFd.start_count = some "Energy Counts\n" := rfl
  have hfast := txt_start_count_semantics.1 txtFastFd "Energy Counts\n" h1 (by decide)
  have h2 : txt_start_count txtDupFd = .ok txtDupOut := rfl
  have h3 : txtDupFd.file_lines.get? txtDupFd.start_count = some "f\n" := rfl
  have h4 : txtDupFd.file_lines =
      ["h0\n", "h1\n", "x Counts x\n", "h3\n", "h4\n"] ++ "y Counts y\n" ::
        List.replicate 16 "f\n" := rfl
  obtain ⟨h5, h6⟩ := txt_start_count_semantics.2 txtDupFd "f\n"
    ["h0\n", "h1\n", "x Counts x\n", "h3\n", "h4\n"] "y Counts y\n"
    (List.replicate 16 "f\n") txtDupOut h3 (by decide) h4 (by decide) (by decide) h2
  exact ⟨hfast, h2, h5, h6⟩

theorem spxHardwareLeaf_scratch (fd : FittingData) (e : Xml) (fdo : FittingData)
    (h : spxHardwareLeaf fd e = .ok fdo) : scratchFields fdo = scratchFields fd := by
  simp only [spxHardwareLeaf] at h
  split at h
  · exact absurd h (by simp)
  rename_i fd1 h1
  split at h
  · exact absurd h (by simp)
  rename_i fd2 h2
  have g1 : scratchFields fd1 = scratchFields fd := by
    split at h1
    · split at h1
      · exact absurd h1 (by simp)
      injection h1 with e1
      rw [← e1]
      rfl
    · injection h1 with e1
      rw [← e1]
  have g2 : scratchFields fd2 = scratchFields fd1 := by
    split at h2
    · split at h2
      · exact absurd h2 (by simp)
      injection h2 with e2
      rw [← e2]
      rfl
    · injection h2 with e2
      rw [← e2]
  have g3 : scratchFields fdo = scratchFields fd2 := by
    split at h
    · split at h
      · exact absurd h (by simp)
      injection h with e3
      rw [← e3]
      split <;> rfl
    · injection h with e3
      rw [← e3]
      split <;> rfl
  rw [g3, g2, g1]

theorem spxDetectorLeaf_scratch (fd : FittingData) (e : Xml) (fdo : FittingData)
    (h : spxDetectorLeaf fd e = .ok fdo) : scratchFields fdo = scratchFields fd := by
  simp only [spxDetectorLeaf] at h
  split at h
  · exact absurd h (by simp)
  rename_i fd2 h2
  have g2 : scratchFields fd2 = scratchFields fd := by
    split at h2
    · split at h2
      · exact absurd h2 (by simp)
      injection h2 with e2
      rw [← e2]
      split <;> rfl
    · injection h2 with e2
      rw [← e2]
      split <;> rfl
  injection h with e3
  rw [← e3, ← g2]
  split <;> (split <;> rfl)

theorem spxSpectrumLeaf_scratch (st : FittingData × SpxLocals) (e : Xml)
    (st2 : FittingData × SpxLocals) (h : spxSpectrumLeaf st e = .ok st2) :
    scratchFields st2.1 = scratchFields st.1 := by
  simp only [spxSpectrumLeaf] at h
  split at h
  · exact absurd h (by simp)
  rename_i fd1 h1
  split at h
  · exact absurd h (by simp)
  rename_i loc3 h3
  split at h
  · exact absurd h (by simp)
  rename_i loc4 h4
  split at h
  · exact absurd h (by simp)
  rename_i loc5 h5
  split at h
  · exact absurd h (by simp)
  rename_i loc6 h6
  injection h with e0
  rw [← e0]
  show scratchFields fd1 = scratchFields st.1
  split at h1
  · split at h1
    · exact absurd h1 (by simp)
    split at h1
    · exact absurd h1 (by simp)
    injection h1 with e1
    rw [← e1]
    rfl
  · injection h1 with e1
    rw [← e1]

theorem exceptFoldl_scratch {α : Type} (f : FittingData → α → Except PyErr FittingData)
    (hf : ∀ fd a fd2, f fd a = .ok fd2 → scratchFields fd2 = scratchFields fd) :
    ∀ (ls : List α) (fd res : FittingData),
      exceptFoldl f fd ls = .ok res → scratchFields res = scratchFields fd := by
  intro ls
  induction ls with
  | nil =>
    intro fd res h
    simp only [exceptFoldl, Except.ok.injEq] at h
    rw [← h]
  | cons a ls2 ih =>
    intro fd res h
    simp only [exceptFoldl] at h
    split at h
    · exact absurd h (by simp)
    rename_i fd2 hstep
    rw [ih fd2 res h, hf fd a fd2 hstep]

theorem exceptFoldl_scratch_pair {α : Type}
    (f : (FittingData × SpxLocals) → α → Except PyErr (FittingData × SpxLocals))
    (hf : ∀ st a st2, f st a = .ok st2 → scratchFields st2.1 = scratchFields st.1) :
    ∀ (ls : List α) (st res : FittingData × SpxLocals),
      exceptFoldl f st ls = .ok res → scratchFields res.1 = scratchFields st.1 := by
  intro ls
  induction ls with
  | nil =>
    intro st res h
    simp only [exceptFoldl, Except.ok.injEq] at h
    rw [← h]
  | cons a ls2 ih =>
    intro st res h
    simp only [exceptFoldl] at h
    split at h
    · exact absurd h (by simp)
    rename_i st2 hstep
    rw [ih st2 res h, hf st a st2 hstep]

theorem spxLevel3_scratch (st : FittingData × SpxLocals) (s3 : Xml)
    (st2 : FittingData × SpxLocals) (h : spxLevel3 st s3 = .ok st2) :
    scratchFields st2.1 = scratchFields st.1 := by
  simp only [spxLevel3] at h
  split at h
  · exact absurd h (by simp)
  rename_i fd1 h1
  have g1 : scratchFields fd1 = scratchFields st.1 := by
    split at h1
    · refine exceptFoldl_scratch _ ?_ s3.children st.1 fd1 h1
      intro fd a fd2 hstep
      split at hstep
      · exact absurd hstep (by simp)
      rename_i fdh hh
      have gh : scratchFields fdh = scratchFields fd := by
        split at hh
        · exact exceptFoldl_scratch _ spxHardwareLeaf_scratch a.children fd fdh hh
        · injection hh with eh
          rw [← eh]
      split at hstep
      · rw [exceptFoldl_scratch _ spxDetectorLeaf_scratch a.children fdh fd2 hstep, gh]
      · injection hstep with es
        rw [← es, gh]
    · injection h1 with e1
      rw [← e1]
  split at h
  · rw [exceptFoldl_scratch_pair _ spxSpectrumLeaf_scratch s3.children (fd1, st.2) st2 h]
    exact g1
  · injection h with e2
    rw [← e2]
    exact g1

theorem spxLevel2_scratch (st : FittingData × SpxLocals) (s2 : Xml)
    (st2 : FittingData × SpxLocals) (h : spxLevel2 st s2 = .ok st2) :
    scratchFields st2.1 = scratchFields st.1 := by
  simp only [spxLevel2] at h
  split at h
  · exact absurd h (by simp)
  rename_i st1 h1
  have g1 : scratchFields st1.1 = scratchFields st.1 :=
    exceptFoldl_scratch_pair _ spxLevel3_scratch s2.children st st1 h1
  split at h
  · injection h with e1
    rw [← e1]
    exact g1
  · split at h
    · exact absurd h (by simp)
    injection h with e1
    rw [← e1]
    exact g1

theorem bruker_spx_import_scratch (root : Xml) (fd0 out : FittingData)
    (h : bruker_spx_import root fd0 = .ok out) :
    scratchFields out = scratchFields fd0 := by
  unfold bruker_spx_import at h
  split at h
  · exact absurd h (by simp)
  rename_i st hst
  obtain ⟨ca, cl, n, -, -, -, -, -, -, hfc, hfl, hfls, hhl, hdl, hrl, -, -, -⟩ :=
    spxPost_ok_spec st.1 st.2 out h
  have g1 : scratchFields st.1 = scratchFields fd0 :=
    exceptFoldl_scratch_pair _ spxLevel2_scratch root.children (fd0, {}) st hst
  rw [← g1]
  simp only [scratchFields, hfc, hfl, hfls, hhl, hdl, hrl]

theorem scratchCleared_reset (fd : FittingData) :
    scratchCleared (reset_to_default_values fd) :=
  ⟨rfl, rfl, rfl, rfl, rfl, rfl⟩

/-- Claim C4 (amended): `bruker_txt_test`, `bruker_txt_import`,
`bruker_txt_mod` and `bruker_msa_import` reset the six scratch fields
(`file_content`, `file_line`, `file_lines`, `header_lines`, `data_lines`,
`replace_lines`) to empty on normal return; `bruker_spx_import` and
`bruker_spx_to_txt_convert` never touch them, leaving them exactly as on
entry — so after those two operations the scratch fields are empty only if
they already were. -/
theorem scratch_fields_reset :
    (∀ (content : String) (fd0 : FittingData),
        scratchCleared (bruker_txt_test content fd0)) ∧
    (∀ (lines : List String) (fd0 out : FittingData),
        bruker_txt_import lines fd0 = .ok out → scratchCleared out) ∧
    (∀ (lines : List String) (fd0 fdo : FittingData) (written : List String),
        bruker_txt_mod lines fd0 = .ok (fdo, written) → scratchCleared fdo) ∧
    (∀ (lines : List String) (fd0 out : FittingData),
        bruker_msa_import lines fd0 = .ok out → scratchCleared out) ∧
    (∀ (root : Xml) (fd0 out : FittingData),
        bruker_spx_import root fd0 = .ok out → scratchFields out = scratchFields fd0) ∧
    (∀ (root : Xml) (fd0 out : FittingData),
        bruker_spx_to_txt_convert root fd0 = .ok out →
        scratchFields out = scratchFields fd0) := by
  refine ⟨?_, ?_, ?_, ?_, ?_, ?_⟩
  · intro content fd0
    exact scratchCleared_reset _
  · intro lines fd0 out h
    simp only [bruker_txt_import] at h
    split at h
    · exact absurd h (by simp)
    split at h
    · exact absurd h (by simp)
    injection h with h2
    rw [← h2]
    exact scratchCleared_reset _
  · intro lines fd0 fdo written h
    simp only [bruker_txt_mod] at h
    split at h
    · exact absurd h (by simp)
    injection h with h2
    rw [Prod.mk.injEq] at h2
    rw [← h2.1]
    exact scratchCleared_reset _
  · intro lines fd0 out h
    simp only [bruker_msa_import] at h
    split at h
    · exact absurd h (by simp)
    split at h
    · exact absurd h (by simp)
    split at h
    · exact absurd h (by simp)
    injection h with h2
    rw [← h2]
    exact scratchCleared_reset _
  · intro root fd0 out h
    exact bruker_spx_import_scratch root fd0 out h
  · intro root fd0 out h
    unfold bruker_spx_to_txt_convert at h
    split at h
    · exact absurd h (by simp)
    rename_i fd1 himp
    split at h
    · exact absurd h (by simp)
    split at h
    · injection h with h2
      rw [← h2]
      exact bruker_spx_import_scratch root fd0 fd1 himp
    · exact absurd h (by simp)

/-- Claim C4 counterexample: running `bruker_spx_import` on a record whose
scratch field `file_lines` is dirty succeeds but leaves that field dirty —
this decode operation does not reset the scratch fields to empty. -/
theorem scratch_fields_reset_counterexample :
    bruker_spx_import spxSampleDoc spxDirtyFd = .ok spxDirtyOut ∧
    spxDirtyOut.file_lines = ["stale\n"] ∧
    ¬scratchCleared spxDirtyOut := by
  refine ⟨rfl, rfl, ?_⟩
  intro hcl
  rcases hcl with ⟨-, -, h3, -, -, -⟩
  rw [show spxDirtyOut.file_lines = ["stale\n"] from rfl] at h3
  exact List.noConfusion h3

/-- Claim C4 witness: the six parts of `scratch_fields_reset` instantiated on
concrete runs of each operation. -/
theorem scratch_fields_reset_witness :
    scratchCleared (bruker_txt_test "Bruker Nano GmbH Berlin, Germany\n" txtSampleFd) ∧
    (bruker_txt_import txtSampleLines txtSampleFd = .ok txtSampleOut ∧
      scratchCleared txtSampleOut) ∧
    (bruker_txt_mod txtSampleLines txtSampleOut = .ok txtSampleMod ∧
      scratchCleared txtSampleMod.1) ∧
    (bruker_msa_import msaSampleLines msaSampleFd = .ok msaSampleOut ∧
      scratchCleared msaSampleOut) ∧
    (bruker_spx_import spxSampleDoc spxSampleFd = .ok spxSampleOut ∧
      scratchFields spxSampleOut = scratchFields spxSampleFd) ∧
    (bruker_spx_to_txt_convert spxSampleDoc spxSampleFd = .ok spxConvertOut ∧
      scratchFields spxConvertOut = scratchFields spxSampleFd) := by
  have h2 : bruker_txt_import txtSampleLines txtSampleFd = .ok txtSampleOut := rfl
  have h3 : bruker_txt_mod txtSampleLines txtSampleOut =
      .ok (txtSampleMod.1, txtSampleMod.2) := rfl
  have h4 : bruker_msa_import msaSampleLines msaSampleFd = .ok msaSampleOut := rfl
  have h5 : bruker_spx_import spxSampleDoc spxSampleFd = .ok spxSampleOut := rfl
  have h6 : bruker_spx_to_txt_convert spxSampleDoc spxSampleFd = .ok spxConvertOut := rfl
  exact ⟨scratch_fields_reset.1 _ txtSampleFd,
    ⟨h2, scratch_fields_reset.2.1 _ _ _ h2⟩,
    ⟨h3, scratch_fields_reset.2.2.1 _ _ _ _ h3⟩,
    ⟨h4, scratch_fields_reset.2.2.2.1 _ _ _ h4⟩,
    ⟨h5, scratch_fields_reset.2.2.2.2.1 _ _ _ h5⟩,
    ⟨h6, scratch_fields_reset.2.2.2.2.2 _ _ _ h6⟩⟩

theorem splitWsAux_ws_cons (c : Char) (cs : List Char) (hc : isPyWs c = true) :
    splitWsAux (c :: cs) [] = splitWsAux cs [] := by
  simp [splitWsAux, hc]

theorem splitWsAux_ws_cons_acc (c : Char) (cs acc : List Char) (hc : isPyWs c = true)
    (ha : acc.isEmpty = false) :
    splitWsAux (c :: cs) acc = acc.reverse :: splitWsAux cs [] := by
  simp [splitWsAux, hc, ha]

theorem splitWsAux_run (t : List Char) (hw : ∀ c ∈ t, isPyWs c = false) :
    ∀ (cs acc : List Char), splitWsAux (t ++ cs) acc = splitWsAux cs (t.reverse ++ acc) := by
  induction t with
  | nil => intro cs acc; simp
  | cons c t2 ih =>
    intro cs acc
    have hc : isPyWs c = false := hw c (List.mem_cons_self c t2)
    have hw2 : ∀ x ∈ t2, isPyWs x = false := fun x hx => hw x (List.mem_cons_of_mem c hx)
    simp only [List.cons_append, splitWsAux, hc, Bool.false_eq_true, if_false,
      List.append_eq]
    rw [ih hw2 cs (c :: acc)]
    simp

theorem splitWsAux_wf :
    ∀ (cs acc : List Char), (∀ c ∈ acc, isPyWs c = false) →
      ∀ t ∈ splitWsAux cs acc, t ≠ [] ∧ ∀ c ∈ t, isPyWs c = false := by
  intro cs
  induction cs with
  | nil =>
    intro acc ha t ht
    simp only [splitWsAux] at ht
    split at ht
    · exact absurd ht (by simp)
    rename_i hne
    simp only [List.mem_singleton] at ht
    subst ht
    refine ⟨?_, ?_⟩
    · intro hrev
      rw [List.reverse_eq_nil_iff] at hrev
      subst hrev
      exact hne rfl
    · intro c hc
      exact ha c (List.mem_reverse.mp hc)
  | cons c cs2 ih =>
    intro acc ha t ht
    simp only [splitWsAux] at ht
    split at ht
    · rename_i hc
      split at ht
      · exact ih [] (by simp) t ht
      · rename_i hne
        simp only [List.mem_cons] at ht
        rcases ht with ht | ht
        · subst ht
          refine ⟨?_, ?_⟩
          · intro hrev
            rw [List.reverse_eq_nil_iff] at hrev
            subst hrev
            exact hne rfl
          · intro x hx
            exact ha x (List.mem_reverse.mp hx)
        · exact ih [] (by simp) t ht
    · rename_i hc
      refine ih (c :: acc) ?_ t ht
      intro x hx
      rcases List.mem_cons.mp hx with hx | hx
      · subst hx
        cases hval : isPyWs x
        · rfl
        · exact absurd hval hc
      · exact ha x hx

theorem splitWsAux_joinSep (tss : List (List Char))
    (hwf : ∀ t ∈ tss, t ≠ [] ∧ ∀ c ∈ t, isPyWs c = false) :
    splitWsAux (joinSep [' ', ' ', ' ', ' '] tss ++ ['\n']) [] = tss := by
  induction tss with
  | nil => simp [joinSep, splitWsAux, isPyWs]
  | cons t ts ih =>
    obtain ⟨hne, hw⟩ := hwf t (List.mem_cons_self t ts)
    have hwf2 : ∀ x ∈ ts, x ≠ [] ∧ ∀ c ∈ x, isPyWs c = false :=
      fun x hx => hwf x (List.mem_cons_of_mem t hx)
    have hrevne : (t.reverse ++ ([] : List Char)).isEmpty = false := by
      rw [List.append_nil]
      cases t with
      | nil => exact absurd rfl hne
      | cons a t2 => simp
    cases ts with
    | nil =>
      rw [show joinSep [' ', ' ', ' ', ' '] [t] = t from rfl,
        splitWsAux_run t hw ['\n'] []]
      rw [splitWsAux_ws_cons_acc '\n' [] (t.reverse ++ []) rfl hrevne]
      simp [splitWsAux]
    | cons t2 ts2 =>
      rw [show joinSep [' ', ' ', ' ', ' '] (t :: t2 :: ts2) =
          t ++ ([' ', ' ', ' ', ' '] ++ joinSep [' ', ' ', ' ', ' '] (t2 :: ts2)) by
        simp [joinSep]]
      rw [List.append_assoc, splitWsAux_run t hw _ []]
      rw [show ([' ', ' ', ' ', ' '] ++ joinSep [' ', ' ', ' ', ' '] (t2 :: ts2)) ++ ['\n'] =
          ' ' :: (' ' :: ' ' :: ' ' ::
            (joinSep [' ', ' ', ' ', ' '] (t2 :: ts2) ++ ['\n'])) by simp]
      rw [splitWsAux_ws_cons_acc ' ' _ (t.reverse ++ []) rfl hrevne]
      rw [splitWsAux_ws_cons ' ' _ rfl, splitWsAux_ws_cons ' ' _ rfl,
        splitWsAux_ws_cons ' ' _ rfl]
      rw [ih hwf2]
      simp

theorem string_data_append (a b : String) : (a ++ b).data = a.data ++ b.data := rfl

theorem map_mk_data (tss : List (List Char)) :
    (tss.map String.mk).map String.data = tss := by
  induction tss with
  | nil => rfl
  | cons t ts ih => simp only [List.map_cons, ih]

/-- Re-splitting a line rebuilt by `'    '.join(line.split()) + '\n'` gives
back exactly the tokens of the original line: the heart of the
modify-in-place round trip. -/
theorem pySplit_rejoin (l : String) :
    pySplit (pyJoin "    " (pySplit l) ++ "\n") = pySplit l := by
  have hwf : ∀ t ∈ splitWsChars l.data, t ≠ [] ∧ ∀ c ∈ t, isPyWs c = false :=
    splitWsAux_wf l.data [] (by simp)
  show (splitWsAux (pyJoin "    " (pySplit l) ++ "\n").data [] ).map String.mk = _
  rw [string_data_append]
  show (splitWsAux
    ((String.mk (joinSep "    ".data ((pySplit l).map String.data))).data ++ "\n".data)
      []).map String.mk = _
  rw [show (String.mk (joinSep "    ".data ((pySplit l).map String.data))).data =
    joinSep "    ".data ((pySplit l).map String.data) from rfl]
  rw [show (pySplit l).map String.data = splitWsChars l.data from map_mk_data _]
  rw [show "    ".data = [' ', ' ', ' ', ' '] from rfl, show "\n".data = ['\n'] from rfl]
  rw [splitWsAux_joinSep (splitWsChars l.data) hwf]
  rfl

theorem str_append_empty (s : String) : s ++ "" = s := by
  cases s with
  | mk d => exact congrArg String.mk (List.append_nil d)

theorem write_converted_file_false (ts : List String) :
    write_converted_file ts "False" = ts := by
  simp only [write_converted_file]
  rw [if_pos (by decide : ("False" : String) ≠ "\n")]
  induction ts with
  | nil => rfl
  | cons t ts2 ih => rw [List.map_cons, str_append_empty, ih]

theorem txt_start_count_file_lines (fd fdo : FittingData)
    (h : txt_start_count fd = .ok fdo) : fdo.file_lines = fd.file_lines := by
  unfold txt_start_count at h
  split at h
  · exact absurd h (by simp)
  split at h
  · injection h with e1
    rw [← e1]
  · injection h with e1
    rw [← e1, txtScanLoop_file_lines]

theorem txt_start_count_probe (fd fdo : FittingData)
    (h : txt_start_count fd = .ok fdo) :
    ∃ l, fd.file_lines.get? fd.start_count = some l := by
  unfold txt_start_count at h
  split at h
  · exact absurd h (by simp)
  rename_i l hget
  exact ⟨l, hget⟩

theorem txt_start_count_stable (fdA fdB fdo1 fdo2 : FittingData)
    (hl : fdB.file_lines = fdA.file_lines)
    (hs : fdB.start_count = fdo1.start_count)
    (h1 : txt_start_count fdA = .ok fdo1)
    (h2 : txt_start_count fdB = .ok fdo2) :
    fdo2.start_count = fdo1.start_count := by
  unfold txt_start_count at h1
  split at h1
  · exact absurd h1 (by simp)
  rename_i l0 hget0
  split at h1
  · rename_i hc0
    injection h1 with e1
    have hgetB : fdB.file_lines.get? fdB.start_count = some l0 := by
      rw [hl, hs, ← e1]
      exact hget0
    unfold txt_start_count at h2
    rw [hgetB] at h2
    simp only [hc0, if_true] at h2
    injection h2 with e2
    rw [← e2, hs]
  · rename_i hc0
    injection h1 with e1
    by_cases hany : fdA.file_lines.any (fun l => containsSub "Counts" l) = true
    · obtain ⟨pre, lk, post, hsp, hlk, hpost⟩ :=
        exists_last_match (fun l => containsSub "Counts" l) fdA.file_lines hany
      have hstart1 : fdo1.start_count = pre.length + 1 := by
        rw [← e1, hsp, txtScanLoop_start_last pre lk post _ hlk hpost]
        simp
      unfold txt_start_count at h2
      split at h2
      · exact absurd h2 (by simp)
      rename_i l2 hget2
      have hl2mem : l2 ∈ post := by
        rw [hl, hs, hstart1, hsp] at hget2
        rw [List.get?_append_right (by omega : pre.length ≤ pre.length + 1)] at hget2
        have hidx : pre.length + 1 - pre.length = 1 := by omega
        rw [hidx] at hget2
        simp only [List.get?_cons_succ] at hget2
        exact List.get?_mem hget2
      have hc2 : containsSub "Counts" l2 = false := hpost l2 hl2mem
      split at h2
      · rename_i hct
        rw [hc2] at hct
        exact absurd hct (by simp)
      injection h2 with e2
      rw [← e2, hl, hsp, txtScanLoop_start_last pre lk post _ hlk hpost, hstart1]
      simp
    · have hall : ∀ l ∈ fdA.file_lines, containsSub "Counts" l = false := by
        intro l hlmem
        cases hv : containsSub "Counts" l
        · rfl
        · exact absurd (List.any_eq_true.mpr ⟨l, hlmem, hv⟩) hany
      have hstart1 : fdo1.start_count = fdA.start_count := by
        rw [← e1, txtScanLoop_start_preserved _ _ hall]
      unfold txt_start_count at h2
      split at h2
      · exact absurd h2 (by simp)
      rename_i l2 hget2
      have hl2 : l2 = l0 := by
        rw [hl, hs, hstart1, hget0] at hget2
        injection hget2 with e3
        exact e3.symm
      split at h2
      · rename_i hct
        rw [hl2] at hct
        exact absurd hct hc0
      injection h2 with e2
      rw [← e2, hl, txtScanLoop_start_preserved _ _ hall]
      show fdB.start_count = fdo1.start_count
      exact hs

theorem bruker_txt_import_ok_start (lines : List String) (fd0 out : FittingData)
    (h : bruker_txt_import lines fd0 = .ok out) :
    ∃ fdA, txt_start_count (txt_read_lines lines fd0) = .ok fdA ∧
      out.start_count = fdA.start_count := by
  simp only [bruker_txt_import] at h
  split at h
  · exact absurd h (by simp)
  rename_i fdA hsc
  split at h
  · exact absurd h (by simp)
  injection h with h2
  refine ⟨fdA, hsc, ?_⟩
  rw [← h2]
  rfl

theorem bruker_txt_mod_ok_spec (lines : List String) (fd0 fdo : FittingData)
    (written : List String) (h : bruker_txt_mod lines fd0 = .ok (fdo, written)) :
    ∃ fdB, txt_start_count (txt_read_lines lines fd0) = .ok fdB ∧
      written = fdB.file_lines.take fdB.start_count ++
        (fdB.file_lines.drop fdB.start_count).map
          (fun l => pyJoin "    " (pySplit l) ++ "\n") := by
  simp only [bruker_txt_mod] at h
  split at h
  · exact absurd h (by simp)
  rename_i fdB hsc
  injection h with h2
  rw [Prod.mk.injEq] at h2
  refine ⟨fdB, hsc, ?_⟩
  rw [← h2.2, write_converted_file_false]

/-- Claim C8: decoding a tabular text file with `bruker_txt_import` and then
re-encoding with the modify-in-place variant `bruker_txt_mod` produces an
output with one line per input line, whose header lines (everything before
the decode's data boundary `start_count`) are byte-identical to the input's,
and whose data lines carry exactly the same whitespace-separated tokens as
the corresponding input lines (hence parse to the same numbers, though the
inter-token spacing is normalized). -/
theorem txt_roundtrip (lines : List String) (fd0 fd1 fd2 : FittingData)
    (out : List String)
    (h1 : bruker_txt_import lines fd0 = .ok fd1)
    (h2 : bruker_txt_mod lines fd1 = .ok (fd2, out)) :
    out.length = lines.length ∧
    out.take fd1.start_count = lines.take fd1.start_count ∧
    ∀ i : Nat, fd1.start_count ≤ i →
      (out.get? i).map pySplit = (lines.get? i).map pySplit := by
  obtain ⟨fdA, hscA, hstartA⟩ := bruker_txt_import_ok_start lines fd0 fd1 h1
  obtain ⟨fdB, hscB, hout⟩ := bruker_txt_mod_ok_spec lines fd1 fd2 out h2
  have hfilesB : fdB.file_lines = lines := by
    rw [txt_start_count_file_lines _ _ hscB]
    rfl
  have hstable : fdB.start_count = fdA.start_count := by
    refine txt_start_count_stable (txt_read_lines lines fd0) (txt_read_lines lines fd1)
      fdA fdB rfl ?_ hscA hscB
    show fd1.start_count = fdA.start_count
    exact hstartA
  have hs : fdB.start_count = fd1.start_count := by rw [hstable, hstartA]
  obtain ⟨lp, hprobe⟩ := txt_start_count_probe _ _ hscB
  have hslen : fd1.start_count < lines.length := by
    by_contra hge
    have hle : lines.length ≤ fd1.start_count := by omega
    have : (txt_read_lines lines fd1).file_lines.get?
        (txt_read_lines lines fd1).start_count = none := by
      show lines.get? fd1.start_count = none
      exact List.get?_eq_none.mpr hle
    rw [this] at hprobe
    cases hprobe
  have houtform : out = lines.take fd1.start_count ++
      (lines.drop fd1.start_count).map (fun l => pyJoin "    " (pySplit l) ++ "\n") := by
    rw [hout, hfilesB, hs]
  have htklen : (lines.take fd1.start_count).length = fd1.start_count := by
    rw [List.length_take]
    omega
  refine ⟨?_, ?_, ?_⟩
  · rw [houtform, List.length_append, htklen, List.length_map, List.length_drop]
    omega
  · have htl := List.take_left (lines.take fd1.start_count)
      ((lines.drop fd1.start_count).map (fun l => pyJoin "    " (pySplit l) ++ "\n"))
    rw [htklen] at htl
    rw [houtform, htl]
  · intro i hi
    rw [houtform, List.get?_append_right (by omega : (lines.take fd1.start_count).length ≤ i),
      htklen, List.get?_map, List.get?_drop]
    have hidx : fd1.start_count + (i - fd1.start_count) = i := by omega
    rw [hidx]
    cases hgi : lines.get? i with
    | none => rfl
    | some x => exact congrArg some (pySplit_rejoin x)

/-- Claim C8 witness: `txt_roundtrip` instantiated on the sample text file:
the rewritten file has the same line count, identical header lines, and
token-identical data lines. -/
theorem txt_roundtrip_witness :
    bruker_txt_import txtSampleLines txtSampleFd = .ok txtSampleOut ∧
    bruker_txt_mod txtSampleLines txtSampleOut = .ok (txtSampleMod.1, txtSampleMod.2) ∧
    txtSampleMod.2.length = txtSampleLines.length ∧
    txtSampleMod.2.take txtSampleOut.start_count =
      txtSampleLines.take txtSampleOut.start_count ∧
    (txtSampleMod.2.get? 21).map pySplit = (txtSampleLines.get? 21).map pySplit := by
  have h1 : bruker_txt_import txtSampleLines txtSampleFd = .ok txtSampleOut := rfl
  have h2 : bruker_txt_mod txtSampleLines txtSampleOut =
      .ok (txtSampleMod.1, txtSampleMod.2) := rfl
  obtain ⟨g1, g2, g3⟩ := txt_roundtrip txtSampleLines txtSampleFd txtSampleOut
    txtSampleMod.1 txtSampleMod.2 h1 h2
  exact ⟨h1, h2, g1, g2, g3 21 (by decide)⟩

/-- Claim C10: the `except TypeError` arm of `bruker_spx_import` reads
`fitting_data.FileName`, an attribute no `FittingData` record has (the actual
field is `file_name`), so the handler itself raises `AttributeError` for
every record and can never produce its diagnostic message. -/
theorem spx_handler_attribute_error :
    (∀ fd : FittingData, spx_typeerror_handler fd = .error .attributeError) ∧
    fittingDataAttributeNames.contains "FileName" = false ∧
    fittingDataAttributeNames.contains "file_name" = true := by
  refine ⟨fun fd => rfl, by decide, by decide⟩

end BrukerIO
